import Mathlib

/-!
Shallow embedding of the riscv-rust emulator core
(src/src/cpu.rs, src/src/mmu.rs, src/src/clint.rs, src/src/plic.rs,
src/src/uart.rs) and a verification of the frozen claims about it.

Machine integers are modelled as `Nat` bit patterns: a `u64`/`i64` value is
the natural number `< 2^64` holding its two's-complement bit pattern, and
every operation that can wrap applies `% 2^64` (resp. `% 2^32`) explicitly.
Rust arrays and `Vec`s are modelled as functions `Nat → Nat` together with
an explicit size where out-of-bounds indexing matters.

Rust `panic!` (a fatal abort of the emulator) is modelled by a dedicated
result constructor, so that abort, architectural trap and normal completion
stay distinguishable.
-/

/-! ## Machine-integer helpers -/

/-- Truncate to a 64-bit pattern (models `u64`/`i64` wrapping). -/
def wrap64 (n : Nat) : Nat := n % 2 ^ 64

/-- Truncate to a 32-bit pattern (models `u32`/`i32` wrapping). -/
def wrap32 (n : Nat) : Nat := n % 2 ^ 32

/-- Truncate to a 16-bit pattern. -/
def wrap16 (n : Nat) : Nat := n % 2 ^ 16

/-- Truncate to an 8-bit pattern (models `as u8`). -/
def wrap8 (n : Nat) : Nat := n % 2 ^ 8

/-- Bitwise complement on 64 bits (Rust `!x` on `u64`). -/
def not64 (n : Nat) : Nat := 0xffffffffffffffff ^^^ wrap64 n

/-- Bitwise complement on 32 bits (Rust `!x` on `u32`). -/
def not32 (n : Nat) : Nat := 0xffffffff ^^^ wrap32 n

/-- Signed value of a 64-bit pattern (Rust `as i64` read). -/
def toSigned64 (n : Nat) : Int :=
  if wrap64 n < 2 ^ 63 then (wrap64 n : Int) else (wrap64 n : Int) - 2 ^ 64

/-- 64-bit pattern of an integer (Rust `as u64`/wrapping store). -/
def ofInt64 (z : Int) : Nat := (z % (2 ^ 64 : Int)).toNat

/-- Signed value of a 32-bit pattern (Rust `as i32` read). -/
def toSigned32 (n : Nat) : Int :=
  if wrap32 n < 2 ^ 31 then (wrap32 n : Int) else (wrap32 n : Int) - 2 ^ 32

/-- 32-bit pattern of an integer. -/
def ofInt32 (z : Int) : Nat := (z % (2 ^ 32 : Int)).toNat

/-- Rust `x as i8 as i64` (sign-extend the low 8 bits to 64). -/
def sext8 (n : Nat) : Nat :=
  if n &&& 0x80 = 0 then n &&& 0xff else (n &&& 0xff) ||| 0xffffffffffffff00

/-- Rust `x as i16 as i64` (sign-extend the low 16 bits to 64). -/
def sext16 (n : Nat) : Nat :=
  if n &&& 0x8000 = 0 then n &&& 0xffff else (n &&& 0xffff) ||| 0xffffffffffff0000

/-- Rust `x as i32 as i64` (sign-extend the low 32 bits to 64). -/
def sext32 (n : Nat) : Nat :=
  if n &&& 0x80000000 = 0 then n &&& 0xffffffff
  else (n &&& 0xffffffff) ||| 0xffffffff00000000

/-- 64-bit wrapping addition (`u64::wrapping_add`, also `i64` addition). -/
def add64 (a b : Nat) : Nat := wrap64 (a + b)

/-- 64-bit wrapping subtraction (`u64::wrapping_sub`, also `i64`). -/
def sub64 (a b : Nat) : Nat := (a % 2 ^ 64 + (2 ^ 64 - b % 2 ^ 64)) % 2 ^ 64

/-- 64-bit wrapping multiplication. -/
def mul64 (a b : Nat) : Nat := wrap64 (a * b)

/-- Arithmetic shift right of a 64-bit pattern (`i64 >> s`, `s < 64`). -/
def sar64 (a s : Nat) : Nat := ofInt64 (Int.fdiv (toSigned64 a) (2 ^ s))

/-- Arithmetic shift right of a 32-bit pattern (`i32 >> s`, `s < 32`). -/
def sar32 (a s : Nat) : Nat := ofInt32 (Int.fdiv (toSigned32 a) (2 ^ s))

/-- `i64::wrapping_shl` / `u64::wrapping_shl`: the shift amount is masked
to its low 6 bits by Rust before shifting. -/
def wshl64 (a s : Nat) : Nat := wrap64 (a <<< (s % 64))

/-- `u64::wrapping_shr`: shift amount masked to its low 6 bits. -/
def wshr64 (a s : Nat) : Nat := wrap64 a >>> (s % 64)

/-- `i64::wrapping_shr` (arithmetic): shift amount masked to 6 bits. -/
def wsar64 (a s : Nat) : Nat := sar64 a (s % 64)

/-- `u32::wrapping_shl`: shift amount masked to its low 5 bits. -/
def wshl32 (a s : Nat) : Nat := wrap32 (a <<< (s % 32))

/-- `u32::wrapping_shr`: shift amount masked to its low 5 bits. -/
def wshr32 (a s : Nat) : Nat := wrap32 a >>> (s % 32)

/-- `i32::wrapping_shr` (arithmetic): shift amount masked to 5 bits. -/
def wsar32 (a s : Nat) : Nat := sar32 a (s % 32)

/-- `i64::wrapping_div` on 64-bit patterns (truncating division; the
`i64::MIN / -1` overflow wraps back to `i64::MIN` through `ofInt64`). -/
def idiv64 (a b : Nat) : Nat := ofInt64 (Int.tdiv (toSigned64 a) (toSigned64 b))

/-- `i64::wrapping_rem` on 64-bit patterns. -/
def irem64 (a b : Nat) : Nat := ofInt64 (Int.tmod (toSigned64 a) (toSigned64 b))

/-- `i32::wrapping_div` producing the 32-bit result pattern. -/
def idiv32 (a b : Nat) : Nat := ofInt32 (Int.tdiv (toSigned32 a) (toSigned32 b))

/-- `i32::wrapping_rem` producing the 32-bit result pattern. -/
def irem32 (a b : Nat) : Nat := ofInt32 (Int.tmod (toSigned32 a) (toSigned32 b))

/-- Signed comparison of two 64-bit patterns (`i64 < i64`). -/
def slt64 (a b : Nat) : Bool := decide (toSigned64 a < toSigned64 b)

/-- Signed comparison, `≥`. -/
def sge64 (a b : Nat) : Bool := decide (toSigned64 b ≤ toSigned64 a)

/-- Pointwise update of a `Nat → Nat` map (models array/`Vec` writes). -/
def updMap (f : Nat → Nat) (i v : Nat) : Nat → Nat :=
  fun j => if j = i then v else f j

/-! ## Core enums and the trap type (src/src/cpu.rs, src/src/mmu.rs) -/

/-- `enum Xlen` from cpu.rs. -/
inductive Xlen where
  | Bit32
  | Bit64
deriving DecidableEq, Repr

/-- `enum PrivilegeMode` from cpu.rs. -/
inductive PrivilegeMode where
  | User
  | Supervisor
  | Reserved
  | Machine
deriving DecidableEq, Repr

/-- `enum TrapType` from cpu.rs. -/
inductive TrapType where
  | InstructionAddressMisaligned
  | InstructionAccessFault
  | IllegalInstruction
  | Breakpoint
  | LoadAddressMisaligned
  | LoadAccessFault
  | StoreAddressMisaligned
  | StoreAccessFault
  | EnvironmentCallFromUMode
  | EnvironmentCallFromSMode
  | EnvironmentCallFromMMode
  | InstructionPageFault
  | LoadPageFault
  | StorePageFault
  | UserSoftwareInterrupt
  | SupervisorSoftwareInterrupt
  | MachineSoftwareInterrupt
  | UserTimerInterrupt
  | SupervisorTimerInterrupt
  | MachineTimerInterrupt
  | UserExternalInterrupt
  | SupervisorExternalInterrupt
  | MachineExternalInterrupt
deriving DecidableEq, Repr

/-- `struct Trap` from cpu.rs: a trap type with its type-specific value. -/
structure Trap where
  trap_type : TrapType
  value : Nat
deriving DecidableEq, Repr

/-- `enum AddressingMode` from mmu.rs. -/
inductive AddressingMode where
  | NoTranslation
  | SV32
  | SV39
  | SV48
deriving DecidableEq, Repr

/-- `enum MemoryAccessType` from mmu.rs. -/
inductive MemoryAccessType where
  | Execute
  | Read
  | Write
deriving DecidableEq, Repr

/-- `enum InterruptType` from plic.rs. -/
inductive InterruptType where
  | NoInterrupt
  | KeyInput
  | Timer
  | TimerSoftware
  | Virtio
deriving DecidableEq, Repr

/-! ## Result types

Rust code in this repository finishes a step in one of three ways:
normally, with an architectural trap (`Result::Err(Trap)`), or by aborting
the whole emulator (`panic!`). `PRes` models a computation that can only
abort; `Res` additionally carries traps, and threads the updated state in
the normal and trap cases (in Rust the state is mutated in place, so
mutations made before an `Err` return persist). -/

/-- Result of a computation that may abort (`panic!`) but not trap. -/
inductive PRes (α : Type) where
  | ok : α → PRes α
  | fatal : PRes α
deriving Repr

/-- Result of a state-threading computation that may trap or abort. -/
inductive Res (σ : Type) (α : Type) where
  | ok : α → σ → Res σ α
  | trap : Trap → σ → Res σ α
  | fatal : Res σ α

/-! ## Terminal and virtio disk (spec-modelled collaborators) -/

/-- Modelled from the spec: the terminal (terminal.rs is not under src/).
Per §6 it is a byte source/sink with `put_byte`, `get_input` (returning 0
when no input is pending), `get_output` and `put_input`; it is modelled as
two byte queues. No claim depends on terminal behaviour. -/
structure Terminal where
  input_queue : List Nat
  output_queue : List Nat

/-- Modelled from the spec: `put_byte` forwards a byte to the host side. -/
def Terminal.put_byte (t : Terminal) (value : Nat) : Terminal :=
  { t with output_queue := t.output_queue ++ [value] }

/-- Modelled from the spec: `get_input` returns the pending byte, or 0 when
no input is pending. -/
def Terminal.get_input (t : Terminal) : Nat × Terminal :=
  match t.input_queue with
  | [] => (0, t)
  | b :: rest => (b, { t with input_queue := rest })

/-- Modelled from the spec: the virtio block device (virtio_block_disk.rs is
not under src/). The spec (§4.6) describes its virtqueue protocol but not
its MMIO register layout, so its MMIO surface is modelled opaquely: loads
return 0 and stores are dropped; only the interrupt latch is kept. No claim
depends on this component. -/
structure VirtioBlockDisk where
  interrupting : Bool

/-- Modelled from the spec: virtio MMIO load (layout unknown, returns 0). -/
def VirtioBlockDisk.load (_d : VirtioBlockDisk) (_address : Nat) : Nat := 0

/-- Modelled from the spec: virtio MMIO store (layout unknown, dropped). -/
def VirtioBlockDisk.store (d : VirtioBlockDisk) (_address _value : Nat) :
    VirtioBlockDisk := d

/-! ## CLINT (src/src/clint.rs) -/

/-- `struct Clint` from clint.rs. -/
structure Clint where
  clock : Nat
  msip : Nat
  mtimecmp : Nat
  mtime : Nat
  interrupting : Bool

/-- `Clint::new`. -/
def Clint.new : Clint :=
  { clock := 0, msip := 0, mtimecmp := 0, mtime := 0, interrupting := false }

/-- `Clint::tick` (clint.rs lines 20-26): latch the interrupt when
`mtimecmp > 0 && mtime > mtimecmp` (checked before the increment), then
increment `clock` and `mtime` with wrapping. -/
def Clint.tick (c : Clint) : Clint :=
  let c :=
    if c.mtimecmp > 0 ∧ c.mtime > c.mtimecmp then { c with interrupting := true }
    else c
  let c := { c with clock := wrap64 (c.clock + 1) }
  { c with mtime := wrap64 (c.mtime + 1) }

/-- `Clint::load` (byte-indexed MMIO read of msip/mtimecmp/mtime). -/
def Clint.load (c : Clint) (address : Nat) : Nat :=
  if address = 0x02000000 then c.msip &&& 0xff
  else if address = 0x02000001 then (c.msip >>> 8) &&& 0xff
  else if address = 0x02000002 then (c.msip >>> 16) &&& 0xff
  else if address = 0x02000003 then (c.msip >>> 24) &&& 0xff
  else if address = 0x02004000 then wrap8 c.mtimecmp
  else if address = 0x02004001 then wrap8 (c.mtimecmp >>> 8)
  else if address = 0x02004002 then wrap8 (c.mtimecmp >>> 16)
  else if address = 0x02004003 then wrap8 (c.mtimecmp >>> 24)
  else if address = 0x02004004 then wrap8 (c.mtimecmp >>> 32)
  else if address = 0x02004005 then wrap8 (c.mtimecmp >>> 40)
  else if address = 0x02004006 then wrap8 (c.mtimecmp >>> 48)
  else if address = 0x02004007 then wrap8 (c.mtimecmp >>> 56)
  else if address = 0x0200bff8 then wrap8 c.mtime
  else if address = 0x0200bff9 then wrap8 (c.mtime >>> 8)
  else if address = 0x0200bffa then wrap8 (c.mtime >>> 16)
  else if address = 0x0200bffb then wrap8 (c.mtime >>> 24)
  else if address = 0x0200bffc then wrap8 (c.mtime >>> 32)
  else if address = 0x0200bffd then wrap8 (c.mtime >>> 40)
  else if address = 0x0200bffe then wrap8 (c.mtime >>> 48)
  else if address = 0x0200bfff then wrap8 (c.mtime >>> 56)
  else 0

/-- `Clint::store` (byte-indexed MMIO write to msip/mtimecmp lanes). -/
def Clint.store (c : Clint) (address value : Nat) : Clint :=
  if address = 0x02000000 then
    { c with msip := (c.msip &&& not32 0xff) ||| wrap32 value }
  else if address = 0x02000001 then
    { c with msip := (c.msip &&& not32 0xff00) ||| wrap32 (value <<< 8) }
  else if address = 0x02000002 then
    { c with msip := (c.msip &&& not32 0xff0000) ||| wrap32 (value <<< 16) }
  else if address = 0x02000003 then
    { c with msip := (c.msip &&& not32 0xff000000) ||| wrap32 (value <<< 24) }
  else if address = 0x02004000 then
    { c with mtimecmp := (c.mtimecmp &&& not64 0xff) ||| value }
  else if address = 0x02004001 then
    { c with mtimecmp := (c.mtimecmp &&& not64 (0xff <<< 8)) ||| (value <<< 8) }
  else if address = 0x02004002 then
    { c with mtimecmp := (c.mtimecmp &&& not64 (0xff <<< 16)) ||| (value <<< 16) }
  else if address = 0x02004003 then
    { c with mtimecmp := (c.mtimecmp &&& not64 (0xff <<< 24)) ||| (value <<< 24) }
  else if address = 0x02004004 then
    { c with mtimecmp := (c.mtimecmp &&& not64 (0xff <<< 32)) ||| (value <<< 32) }
  else if address = 0x02004005 then
    { c with mtimecmp := (c.mtimecmp &&& not64 (0xff <<< 40)) ||| (value <<< 40) }
  else if address = 0x02004006 then
    { c with mtimecmp := (c.mtimecmp &&& not64 (0xff <<< 48)) ||| (value <<< 48) }
  else if address = 0x02004007 then
    { c with mtimecmp := (c.mtimecmp &&& not64 (0xff <<< 56)) ||| (value <<< 56) }
  else c

/-- `Clint::is_interrupting`. -/
def Clint.is_interrupting (c : Clint) : Bool := c.interrupting

/-- `Clint::reset_interrupting` (clint.rs lines 146-149): clear the latch
and reset `mtime` to 0. -/
def Clint.reset_interrupting (c : Clint) : Clint :=
  { c with interrupting := false, mtime := 0 }

/-! ## UART (src/src/uart.rs) -/

/-- `struct Uart` from uart.rs. -/
structure Uart where
  clock : Nat
  receive_register : Nat
  line_status_register : Nat
  interrupt_enable_register : Nat
  interrupt_identification_register : Nat
  line_control_register : Nat
  interrupting : Bool
  terminal : Terminal

/-- `Uart::is_interrupting`. -/
def Uart.is_interrupting (u : Uart) : Bool := u.interrupting

/-- `Uart::reset_interrupting`. -/
def Uart.reset_interrupting (u : Uart) : Uart := { u with interrupting := false }

/-- `Uart::load` (uart.rs lines 51-87): MMIO read returning the byte and
the updated device state (reading the receiver buffer register consumes
the byte and clears the data-ready status). -/
def Uart.load (u : Uart) (address : Nat) : Nat × Uart :=
  if address = 0x10000000 then
    if u.line_control_register >>> 7 = 0 then
      let u :=
        if u.interrupt_identification_register &&& 0xe = 0x4 then
          { u with interrupt_identification_register := 0xf }
        else u
      let value := u.receive_register
      (value, { u with receive_register := 0x0, line_status_register := 0x20 })
    else (0, u)
  else if address = 0x10000001 then
    if u.line_control_register >>> 7 = 0 then (u.interrupt_enable_register, u)
    else (0, u)
  else if address = 0x10000002 then
    if u.line_control_register >>> 7 = 0 then
      let u :=
        if u.interrupt_identification_register &&& 0xe ≠ 0x2 then
          { u with interrupt_identification_register := 0xf }
        else u
      (u.interrupt_identification_register, u)
    else (0, u)
  else if address = 0x10000003 then (u.line_control_register, u)
  else if address = 0x10000005 then
    if u.line_control_register >>> 7 = 0 then (u.line_status_register, u)
    else (0, u)
  else (0, u)

/-- `Uart::store` (uart.rs lines 89-116): MMIO write; writing the transfer
holding register forwards the byte to the terminal and may latch a
THR-empty interrupt. -/
def Uart.store (u : Uart) (address value : Nat) : Uart :=
  if address = 0x10000000 then
    if u.line_control_register >>> 7 = 0 then
      let u := { u with terminal := u.terminal.put_byte value }
      if u.interrupt_enable_register &&& 2 ≠ 0 then
        { u with interrupting := true, interrupt_identification_register := 0x3 }
      else if u.interrupt_identification_register &&& 0xe ≠ 0x2 then
        { u with interrupt_identification_register := 0xf }
      else u
    else u
  else if address = 0x10000001 then
    if u.line_control_register >>> 7 = 0 then
      { u with interrupt_enable_register := value }
    else u
  else if address = 0x10000003 then { u with line_control_register := value }
  else u

/-! ## PLIC (src/src/plic.rs) -/

/-- `struct Plic` from plic.rs (`priorities` is the 1024-entry array). -/
structure Plic where
  clock : Nat
  irq : Nat
  enabled : Nat
  threshold : Nat
  priorities : Nat → Nat
  interrupt : InterruptType

/-- `Plic::load` (plic.rs lines 116-146). -/
def Plic.load (p : Plic) (address : Nat) : Nat :=
  if 0x0c000000 ≤ address ∧ address ≤ 0x0c000ffc then
    let offset := address % 4
    let index := (address - 0xc000000) >>> 2
    let pos := offset <<< 3
    wrap8 (p.priorities index >>> pos)
  else if address = 0x0c002080 then wrap8 p.enabled
  else if address = 0x0c002081 then wrap8 (p.enabled >>> 8)
  else if address = 0x0c002082 then wrap8 (p.enabled >>> 16)
  else if address = 0x0c002083 then wrap8 (p.enabled >>> 24)
  else if address = 0x0c002084 then wrap8 (p.enabled >>> 32)
  else if address = 0x0c002085 then wrap8 (p.enabled >>> 40)
  else if address = 0x0c002086 then wrap8 (p.enabled >>> 48)
  else if address = 0x0c002087 then wrap8 (p.enabled >>> 56)
  else if address = 0x0c201000 then wrap8 p.threshold
  else if address = 0x0c201001 then wrap8 (p.threshold >>> 8)
  else if address = 0x0c201002 then wrap8 (p.threshold >>> 16)
  else if address = 0x0c201003 then wrap8 (p.threshold >>> 24)
  else if address = 0x0c201004 then wrap8 p.irq
  else if address = 0x0c201005 then wrap8 (p.irq >>> 8)
  else if address = 0x0c201006 then wrap8 (p.irq >>> 16)
  else if address = 0x0c201007 then wrap8 (p.irq >>> 24)
  else 0

/-- `Plic::store` (plic.rs lines 148-200); writing the claim/complete
register with the latched irq clears it. -/
def Plic.store (p : Plic) (address value : Nat) : Plic :=
  if 0x0c000000 ≤ address ∧ address ≤ 0x0c000ffc then
    let offset := address % 4
    let index := (address - 0xc000000) >>> 2
    let pos := offset <<< 3
    let newPriority :=
      (p.priorities index &&& not32 (0xff <<< pos)) ||| wrap32 (value <<< pos)
    { p with priorities := updMap p.priorities index newPriority }
  else if address = 0x0c002080 then
    { p with enabled := (p.enabled &&& not64 0xff) ||| value }
  else if address = 0x0c002081 then
    { p with enabled := (p.enabled &&& not64 0xff00) ||| (value <<< 8) }
  else if address = 0x0c002082 then
    { p with enabled := (p.enabled &&& not64 0xff0000) ||| (value <<< 16) }
  else if address = 0x0c002083 then
    { p with enabled := (p.enabled &&& not64 0xff000000) ||| (value <<< 24) }
  else if address = 0x0c002084 then
    { p with enabled := (p.enabled &&& not64 0xff00000000) ||| (value <<< 32) }
  else if address = 0x0c002085 then
    { p with enabled := (p.enabled &&& not64 0xff0000000000) ||| (value <<< 40) }
  else if address = 0x0c002086 then
    { p with enabled := (p.enabled &&& not64 0xff000000000000) ||| (value <<< 48) }
  else if address = 0x0c002087 then
    { p with enabled := (p.enabled &&& not64 0xff00000000000000) ||| (value <<< 56) }
  else if address = 0x0c201000 then
    { p with threshold := (p.threshold &&& not32 0xff) ||| wrap32 value }
  else if address = 0x0c201001 then
    { p with threshold := (p.threshold &&& not32 0xff00) ||| wrap32 (value <<< 8) }
  else if address = 0x0c201002 then
    { p with threshold := (p.threshold &&& not32 0xff0000) ||| wrap32 (value <<< 16) }
  else if address = 0x0c201003 then
    { p with threshold := (p.threshold &&& not32 0xff000000) ||| wrap32 (value <<< 24) }
  else if address = 0x0c201004 then
    if wrap8 p.irq = value then { p with irq := 0 } else p
  else p

/-! ## MMU (src/src/mmu.rs) -/

/-- `DRAM_BASE` from mmu.rs. -/
def DRAM_BASE : Nat := 0x80000000

/-- `struct Mmu` from mmu.rs. `memory` and `dtb` are the `Vec<u8>` byte
stores modelled as maps plus explicit lengths (indexing past the length is
a Rust panic, modelled as `fatal`). -/
structure Mmu where
  clock : Nat
  xlen : Xlen
  ppn : Nat
  addressing_mode : AddressingMode
  privilege_mode : PrivilegeMode
  memory : Nat → Nat
  memorySize : Nat
  dtb : Nat → Nat
  dtbSize : Nat
  disk : VirtioBlockDisk
  plic : Plic
  clint : Clint
  uart : Uart

/-- `Mmu::get_effective_address` (mask to 32 bits under XLEN=32). -/
def Mmu.get_effective_address (m : Mmu) (address : Nat) : Nat :=
  match m.xlen with
  | .Bit32 => address &&& 0xffffffff
  | .Bit64 => address

/-- `Mmu::update_xlen`. -/
def Mmu.update_xlen (m : Mmu) (xlen : Xlen) : Mmu := { m with xlen := xlen }

/-- `Mmu::update_addressing_mode`. -/
def Mmu.update_addressing_mode (m : Mmu) (new_addressing_mode : AddressingMode) :
    Mmu := { m with addressing_mode := new_addressing_mode }

/-- `Mmu::update_privilege_mode`. -/
def Mmu.update_privilege_mode (m : Mmu) (mode : PrivilegeMode) : Mmu :=
  { m with privilege_mode := mode }

/-- `Mmu::update_ppn`. -/
def Mmu.update_ppn (m : Mmu) (ppn : Nat) : Mmu := { m with ppn := ppn }

/-- `Mmu::load_raw` (mmu.rs lines 289-307): physical dispatch of a byte
load to DTB, CLINT, PLIC, UART, virtio or DRAM; addresses below DRAM that
hit no device are a fatal panic, as is indexing past the end of a `Vec`. -/
def Mmu.load_raw (m : Mmu) (address : Nat) : PRes (Nat × Mmu) :=
  let effective_address := m.get_effective_address address
  if 0x00001020 ≤ address ∧ address ≤ 0x00001ea2 then
    if address - 0x1020 < m.dtbSize then .ok (m.dtb (address - 0x1020), m)
    else .fatal
  else if 0x02000000 ≤ address ∧ address ≤ 0x0200ffff then
    .ok (m.clint.load effective_address, m)
  else if 0x0c000000 ≤ address ∧ address ≤ 0x0fffffff then
    .ok (m.plic.load effective_address, m)
  else if 0x10000000 ≤ address ∧ address ≤ 0x100000ff then
    let result := m.uart.load effective_address
    .ok (result.1, { m with uart := result.2 })
  else if 0x10001000 ≤ address ∧ address ≤ 0x10001fff then
    .ok (m.disk.load effective_address, m)
  else if effective_address < DRAM_BASE then .fatal
  else if effective_address - DRAM_BASE < m.memorySize then
    .ok (m.memory (effective_address - DRAM_BASE), m)
  else .fatal

/-- `Mmu::store_raw` (mmu.rs lines 333-356): physical dispatch of a byte
store. -/
def Mmu.store_raw (m : Mmu) (address value : Nat) : PRes Mmu :=
  let effective_address := m.get_effective_address address
  if 0x02000000 ≤ address ∧ address ≤ 0x0200ffff then
    .ok { m with clint := m.clint.store effective_address value }
  else if 0x0c000000 ≤ address ∧ address ≤ 0x0fffffff then
    .ok { m with plic := m.plic.store effective_address value }
  else if 0x10000000 ≤ address ∧ address ≤ 0x100000ff then
    .ok { m with uart := m.uart.store effective_address value }
  else if 0x10001000 ≤ address ∧ address ≤ 0x10001fff then
    .ok { m with disk := m.disk.store effective_address value }
  else if effective_address < DRAM_BASE then .fatal
  else if effective_address - DRAM_BASE < m.memorySize then
    .ok { m with memory := updMap m.memory (effective_address - DRAM_BASE) value }
  else .fatal

/-- The `for i in 0..width` little-endian byte-load loop shared by
`load_halfword_raw` / `load_word_raw` / `load_doubleword_raw`. -/
def Mmu.load_raw_bytes (m : Mmu) (address : Nat) : Nat → PRes (Nat × Mmu)
  | 0 => .ok (0, m)
  | w + 1 =>
    match m.load_raw address with
    | .fatal => .fatal
    | .ok (b, m1) =>
      match m1.load_raw_bytes (add64 address 1) w with
      | .fatal => .fatal
      | .ok (rest, m2) => .ok (b ||| (rest <<< 8), m2)

/-- `Mmu::load_halfword_raw`. -/
def Mmu.load_halfword_raw (m : Mmu) (address : Nat) : PRes (Nat × Mmu) :=
  m.load_raw_bytes address 2

/-- `Mmu::load_word_raw`. -/
def Mmu.load_word_raw (m : Mmu) (address : Nat) : PRes (Nat × Mmu) :=
  m.load_raw_bytes address 4

/-- `Mmu::load_doubleword_raw`. -/
def Mmu.load_doubleword_raw (m : Mmu) (address : Nat) : PRes (Nat × Mmu) :=
  m.load_raw_bytes address 8

/-- The `for i in 0..width` little-endian byte-store loop shared by the
`store_*_raw` functions. -/
def Mmu.store_raw_bytes (m : Mmu) (address value : Nat) : Nat → PRes Mmu
  | 0 => .ok m
  | w + 1 =>
    match m.store_raw address (value &&& 0xff) with
    | .fatal => .fatal
    | .ok m1 => m1.store_raw_bytes (add64 address 1) (value >>> 8) w

/-- `Mmu::store_halfword_raw`. -/
def Mmu.store_halfword_raw (m : Mmu) (address value : Nat) : PRes Mmu :=
  m.store_raw_bytes address value 2

/-- `Mmu::store_word_raw`. -/
def Mmu.store_word_raw (m : Mmu) (address value : Nat) : PRes Mmu :=
  m.store_raw_bytes address value 4

/-- `Mmu::store_doubleword_raw`. -/
def Mmu.store_doubleword_raw (m : Mmu) (address value : Nat) : PRes Mmu :=
  m.store_raw_bytes address value 8

/-- `Mmu::traverse_page` (mmu.rs lines 399-506): one level of the SV32/SV39
page-table walk. `none` in the result is the `Err(())` translation failure;
the walk mutates the MMU when it persists A/D bits back into the PTE.
The source recurses on `level`; here the recursion is driven by an
explicit fuel argument matched at the top of the definition (kept at
`level + 1` by `Mmu.traverse_page`, so the fuel-exhausted case is never
reached: every recursive call decrements `level` and the fuel together). -/
def Mmu.traverse_page_fueled : Nat → Mmu → Nat → Nat → Nat → (Nat → Nat) →
    MemoryAccessType → PRes (Option Nat × Mmu)
  | 0, _, _, _, _, _, _ => .fatal
  | fuel + 1, m, v_address, level, parent_ppn, vpns, access_type =>
  let pagesize := 4096
  let ptesize := match m.addressing_mode with
    | .SV32 => 4
    | _ => 8
  let pte_address := wrap64 (parent_ppn * pagesize + vpns level * ptesize)
  match (match m.addressing_mode with
         | .SV32 => m.load_word_raw pte_address
         | _ => m.load_doubleword_raw pte_address) with
  | .fatal => .fatal
  | .ok (pte, m) =>
    let ppn := match m.addressing_mode with
      | .SV32 => (pte >>> 10) &&& 0x3fffff
      | _ => (pte >>> 10) &&& 0xfffffffffff
    match (match m.addressing_mode with
           | .SV32 => PRes.ok (fun i => match i with
               | 0 => (pte >>> 10) &&& 0x3ff
               | 1 => (pte >>> 20) &&& 0xfff
               | _ => 0)
           | .SV39 => PRes.ok (fun i => match i with
               | 0 => (pte >>> 10) &&& 0x1ff
               | 1 => (pte >>> 19) &&& 0x1ff
               | _ => (pte >>> 28) &&& 0x3ffffff)
           | _ => PRes.fatal) with
    | .fatal => .fatal
    | .ok ppns =>
      let d := (pte >>> 7) &&& 1
      let a := (pte >>> 6) &&& 1
      let x := (pte >>> 3) &&& 1
      let w := (pte >>> 2) &&& 1
      let r := (pte >>> 1) &&& 1
      let v := pte &&& 1
      if v = 0 ∨ (r = 0 ∧ w = 1) then .ok (none, m)
      else if r = 0 ∧ x = 0 then
        match level with
        | 0 => .ok (none, m)
        | l + 1 =>
          Mmu.traverse_page_fueled fuel m v_address l ppn vpns access_type
      else
        match (if (a == 0 || (match access_type with
                              | .Write => d == 0
                              | _ => false)) = true then
                 let new_pte := pte ||| (1 <<< 6) |||
                   (match access_type with
                    | .Write => 1 <<< 7
                    | _ => 0)
                 match m.addressing_mode with
                 | .SV32 => m.store_word_raw pte_address (wrap32 new_pte)
                 | _ => m.store_doubleword_raw pte_address new_pte
               else PRes.ok m) with
        | .fatal => .fatal
        | .ok m =>
          if (match access_type with
              | .Execute => x == 0
              | .Read => r == 0
              | .Write => w == 0) = true then .ok (none, m)
          else
            let offset := v_address &&& 0xfff
            match m.addressing_mode with
            | .SV32 =>
              match level with
              | 1 =>
                if ppns 0 ≠ 0 then .ok (none, m)
                else .ok (some ((ppns 1 <<< 22) ||| (vpns 0 <<< 12) ||| offset), m)
              | 0 => .ok (some ((ppn <<< 12) ||| offset), m)
              | _ => .fatal
            | _ =>
              match level with
              | 2 =>
                if ppns 1 ≠ 0 ∨ ppns 0 ≠ 0 then .ok (none, m)
                else .ok (some ((ppns 2 <<< 30) ||| (vpns 1 <<< 21) |||
                  (vpns 0 <<< 12) ||| offset), m)
              | 1 =>
                if ppns 0 ≠ 0 then .ok (none, m)
                else .ok (some ((ppns 2 <<< 30) ||| (ppns 1 <<< 21) |||
                  (vpns 0 <<< 12) ||| offset), m)
              | 0 => .ok (some ((ppn <<< 12) ||| offset), m)
              | _ => .fatal

/-- The accessed/dirty update condition of `Mmu::traverse_page`
(mmu.rs line 443): the A bit is clear, or the access is a write and the
D bit is clear. -/
def pte_needs_ad_update (pte : Nat) (access_type : MemoryAccessType) : Bool :=
  (pte >>> 6) &&& 1 == 0 || (match access_type with
    | .Write => (pte >>> 7) &&& 1 == 0
    | _ => false)

/-- The updated PTE value written back by `Mmu::traverse_page`
(mmu.rs lines 444-449): the A bit set, plus the D bit for a write. -/
def pte_with_ad (pte : Nat) (access_type : MemoryAccessType) : Nat :=
  pte ||| (1 <<< 6) ||| (match access_type with
    | .Write => 1 <<< 7
    | _ => 0)

/-- The leaf permission check of `Mmu::traverse_page` (mmu.rs lines
456-460): the permission bit demanded by the access type is clear. -/
def pte_denies (pte : Nat) (access_type : MemoryAccessType) : Bool :=
  match access_type with
  | .Execute => (pte >>> 3) &&& 1 == 0
  | .Read => (pte >>> 1) &&& 1 == 0
  | .Write => (pte >>> 2) &&& 1 == 0

/-- The PTE size selected by `Mmu::traverse_page` (mmu.rs lines 402-405):
4 bytes under SV32, 8 bytes otherwise. -/
def Mmu.ptesize (m : Mmu) : Nat :=
  match m.addressing_mode with
  | .SV32 => 4
  | _ => 8

/-- The PTE read of `Mmu::traverse_page` (mmu.rs lines 407-410): a word
under SV32, a doubleword otherwise. -/
def Mmu.load_pte (m : Mmu) (pte_address : Nat) : PRes (Nat × Mmu) :=
  match m.addressing_mode with
  | .SV32 => m.load_word_raw pte_address
  | _ => m.load_doubleword_raw pte_address

/-- The A/D write-back store of `Mmu::traverse_page` (mmu.rs lines
450-454): a truncated word under SV32, a doubleword otherwise. -/
def Mmu.store_pte (m : Mmu) (pte_address new_pte : Nat) : PRes Mmu :=
  match m.addressing_mode with
  | .SV32 => m.store_word_raw pte_address (wrap32 new_pte)
  | _ => m.store_doubleword_raw pte_address new_pte

/-- `Mmu::traverse_page` proper: run the walk with fuel `level + 1`
(an upper bound on the recursion depth, since each recursive call
decrements `level`). -/
def Mmu.traverse_page (m : Mmu) (v_address : Nat) (level : Nat)
    (parent_ppn : Nat) (vpns : Nat → Nat) (access_type : MemoryAccessType) :
    PRes (Option Nat × Mmu) :=
  Mmu.traverse_page_fueled (level + 1) m v_address level parent_ppn vpns
    access_type

/-- `Mmu::translate_address` (mmu.rs lines 376-397). -/
def Mmu.translate_address (m : Mmu) (address : Nat)
    (access_type : MemoryAccessType) : PRes (Option Nat × Mmu) :=
  match m.addressing_mode with
  | .NoTranslation => .ok (some address, m)
  | .SV32 =>
    match m.privilege_mode with
    | .User | .Supervisor =>
      let vpns := fun i => match i with
        | 0 => (address >>> 12) &&& 0x3ff
        | _ => (address >>> 22) &&& 0x3ff
      m.traverse_page address (2 - 1) m.ppn vpns access_type
    | _ => .ok (some address, m)
  | .SV39 =>
    match m.privilege_mode with
    | .User | .Supervisor =>
      let vpns := fun i => match i with
        | 0 => (address >>> 12) &&& 0x1ff
        | 1 => (address >>> 21) &&& 0x1ff
        | _ => (address >>> 30) &&& 0x1ff
      m.traverse_page address (3 - 1) m.ppn vpns access_type
    | _ => .ok (some address, m)
  | .SV48 => .fatal

/-- `Mmu::fetch`: translated byte fetch (execute access). -/
def Mmu.fetch (m : Mmu) (v_address : Nat) : Res Mmu Nat :=
  let effective_address := m.get_effective_address v_address
  match m.translate_address effective_address .Execute with
  | .fatal => .fatal
  | .ok (none, m) => .trap ⟨.InstructionPageFault, v_address⟩ m
  | .ok (some p_address, m) =>
    match m.load_raw p_address with
    | .fatal => .fatal
    | .ok (b, m) => .ok b m

/-- The byte-wise fallback loop of `Mmu::fetch_bytes` for accesses that
span a page boundary. -/
def Mmu.fetch_bytes_spanning (m : Mmu) (v_address : Nat) : Nat → Res Mmu Nat
  | 0 => .ok 0 m
  | w + 1 =>
    match m.fetch v_address with
    | .fatal => .fatal
    | .trap e m => .trap e m
    | .ok b m =>
      match m.fetch_bytes_spanning (add64 v_address 1) w with
      | .fatal => .fatal
      | .trap e m => .trap e m
      | .ok rest m => .ok (b ||| (rest <<< 8)) m

/-- `Mmu::fetch_bytes` (mmu.rs lines 137-165): translate once when the
access stays inside a 4 KiB page, otherwise fall back to byte fetches. -/
def Mmu.fetch_bytes (m : Mmu) (v_address width : Nat) : Res Mmu Nat :=
  if v_address &&& 0xfff ≤ 0x1000 - width then
    let effective_address := m.get_effective_address v_address
    match m.translate_address effective_address .Execute with
    | .fatal => .fatal
    | .ok (none, m) => .trap ⟨.InstructionPageFault, v_address⟩ m
    | .ok (some p_address, m) =>
      match m.load_raw_bytes p_address width with
      | .fatal => .fatal
      | .ok (data, m) => .ok data m
  else m.fetch_bytes_spanning v_address width

/-- `Mmu::fetch_word`. -/
def Mmu.fetch_word (m : Mmu) (v_address : Nat) : Res Mmu Nat :=
  m.fetch_bytes v_address 4

/-- `Mmu::load`: translated byte load (read access). -/
def Mmu.load (m : Mmu) (v_address : Nat) : Res Mmu Nat :=
  let effective_address := m.get_effective_address v_address
  match m.translate_address effective_address .Read with
  | .fatal => .fatal
  | .ok (none, m) => .trap ⟨.LoadPageFault, v_address⟩ m
  | .ok (some p_address, m) =>
    match m.load_raw p_address with
    | .fatal => .fatal
    | .ok (b, m) => .ok b m

/-- The byte-wise fallback loop of `Mmu::load_bytes`. -/
def Mmu.load_bytes_spanning (m : Mmu) (v_address : Nat) : Nat → Res Mmu Nat
  | 0 => .ok 0 m
  | w + 1 =>
    match m.load v_address with
    | .fatal => .fatal
    | .trap e m => .trap e m
    | .ok b m =>
      match m.load_bytes_spanning (add64 v_address 1) w with
      | .fatal => .fatal
      | .trap e m => .trap e m
      | .ok rest m => .ok (b ||| (rest <<< 8)) m

/-- `Mmu::load_bytes` (mmu.rs lines 186-214). -/
def Mmu.load_bytes (m : Mmu) (v_address width : Nat) : Res Mmu Nat :=
  if v_address &&& 0xfff ≤ 0x1000 - width then
    let effective_address := m.get_effective_address v_address
    match m.translate_address effective_address .Read with
    | .fatal => .fatal
    | .ok (none, m) => .trap ⟨.LoadPageFault, v_address⟩ m
    | .ok (some p_address, m) =>
      match m.load_raw_bytes p_address width with
      | .fatal => .fatal
      | .ok (data, m) => .ok data m
  else m.load_bytes_spanning v_address width

/-- `Mmu::load_halfword`. -/
def Mmu.load_halfword (m : Mmu) (v_address : Nat) : Res Mmu Nat :=
  m.load_bytes v_address 2

/-- `Mmu::load_word`. -/
def Mmu.load_word (m : Mmu) (v_address : Nat) : Res Mmu Nat :=
  m.load_bytes v_address 4

/-- `Mmu::load_doubleword`. -/
def Mmu.load_doubleword (m : Mmu) (v_address : Nat) : Res Mmu Nat :=
  m.load_bytes v_address 8

/-- `Mmu::store`: translated byte store (write access). -/
def Mmu.store (m : Mmu) (v_address value : Nat) : Res Mmu Unit :=
  let effective_address := m.get_effective_address v_address
  match m.translate_address effective_address .Write with
  | .fatal => .fatal
  | .ok (none, m) => .trap ⟨.StorePageFault, v_address⟩ m
  | .ok (some p_address, m) =>
    match m.store_raw p_address value with
    | .fatal => .fatal
    | .ok m => .ok () m

/-- The byte-wise fallback loop of `Mmu::store_bytes`. -/
def Mmu.store_bytes_spanning (m : Mmu) (v_address value : Nat) :
    Nat → Res Mmu Unit
  | 0 => .ok () m
  | w + 1 =>
    match m.store v_address (value &&& 0xff) with
    | .fatal => .fatal
    | .trap e m => .trap e m
    | .ok _ m => m.store_bytes_spanning (add64 v_address 1) (value >>> 8) w

/-- `Mmu::store_bytes` (mmu.rs lines 250-275). -/
def Mmu.store_bytes (m : Mmu) (v_address value width : Nat) : Res Mmu Unit :=
  if v_address &&& 0xfff ≤ 0x1000 - width then
    let effective_address := m.get_effective_address v_address
    match m.translate_address effective_address .Write with
    | .fatal => .fatal
    | .ok (none, m) => .trap ⟨.StorePageFault, v_address⟩ m
    | .ok (some p_address, m) =>
      match m.store_raw_bytes p_address value width with
      | .fatal => .fatal
      | .ok m => .ok () m
  else m.store_bytes_spanning v_address value width

/-- `Mmu::store_halfword`. -/
def Mmu.store_halfword (m : Mmu) (v_address value : Nat) : Res Mmu Unit :=
  m.store_bytes v_address value 2

/-- `Mmu::store_word`. -/
def Mmu.store_word (m : Mmu) (v_address value : Nat) : Res Mmu Unit :=
  m.store_bytes v_address value 4

/-- `Mmu::store_doubleword`. -/
def Mmu.store_doubleword (m : Mmu) (v_address value : Nat) : Res Mmu Unit :=
  m.store_bytes v_address value 8

/-! ## CPU data model (src/src/cpu.rs) -/

/-- CSR addresses from cpu.rs. -/
def CSR_USTATUS_ADDRESS : Nat := 0x000

/-- `utvec`. -/
def CSR_UTVEC_ADDRESS : Nat := 0x005

/-- `uepc`. -/
def CSR_UEPC_ADDRESS : Nat := 0x041

/-- `ucause`. -/
def CSR_UCAUSE_ADDRESS : Nat := 0x042

/-- `utval`. -/
def CSR_UTVAL_ADDRESS : Nat := 0x043

/-- `sstatus`. -/
def CSR_SSTATUS_ADDRESS : Nat := 0x100

/-- `sedeleg`. -/
def CSR_SEDELEG_ADDRESS : Nat := 0x102

/-- `sideleg`. -/
def CSR_SIDELEG_ADDRESS : Nat := 0x103

/-- `stvec`. -/
def CSR_STVEC_ADDRESS : Nat := 0x105

/-- `sepc`. -/
def CSR_SEPC_ADDRESS : Nat := 0x141

/-- `scause`. -/
def CSR_SCAUSE_ADDRESS : Nat := 0x142

/-- `stval`. -/
def CSR_STVAL_ADDRESS : Nat := 0x143

/-- `satp`. -/
def CSR_SATP_ADDRESS : Nat := 0x180

/-- `mstatus`. -/
def CSR_MSTATUS_ADDRESS : Nat := 0x300

/-- `misa`. -/
def CSR_MISA_ADDRESS : Nat := 0x301

/-- `medeleg`. -/
def CSR_MEDELEG_ADDRESS : Nat := 0x302

/-- `mideleg`. -/
def CSR_MIDELEG_ADDRESS : Nat := 0x303

/-- `mtvec`. -/
def CSR_MTVEC_ADDRESS : Nat := 0x305

/-- `mepc`. -/
def CSR_MEPC_ADDRESS : Nat := 0x341

/-- `mcause`. -/
def CSR_MCAUSE_ADDRESS : Nat := 0x342

/-- `mtval`. -/
def CSR_MTVAL_ADDRESS : Nat := 0x343

/-- `enum Instruction` from cpu.rs. -/
inductive Instruction where
  | ADD | ADDI | ADDIW | ADDW
  | AMOADDD | AMOADDW | AMOANDD | AMOORD | AMOORW | AMOSWAPD | AMOSWAPW
  | AND | ANDI | AUIPC
  | BEQ | BGE | BGEU | BLT | BLTU | BNE
  | CSRRC | CSRRCI | CSRRS | CSRRSI | CSRRW | CSRRWI
  | DIV | DIVU | DIVUW | DIVW
  | ECALL | FENCE | JAL | JALR
  | LB | LBU | LD | LH | LHU | LRD | LRW | LUI | LW | LWU
  | MUL | MULH | MULHU | MULHSU | MULW | MRET
  | OR | ORI
  | REM | REMU | REMUW | REMW
  | SB | SCD | SCW | SD | SFENCEVMA | SH
  | SLL | SLLI | SLLIW | SLLW | SLT | SLTI | SLTU | SLTIU
  | SRA | SRAI | SRAIW | SRAW | SRET | SRL | SRLI | SRLIW | SRLW
  | SUB | SUBW | SW | URET | XOR | XORI
deriving DecidableEq, Repr

/-- `enum InstructionFormat` from cpu.rs (`C` is the CSR format, `O` the
fence-like one). -/
inductive InstructionFormat where
  | B | C | I | J | O | R | S | U
deriving DecidableEq, Repr

/-- `get_privilege_encoding` (cpu.rs lines 208-215): bigger number is a
higher privilege level; the `Reserved` value is a fatal panic. -/
def get_privilege_encoding (mode : PrivilegeMode) : PRes Nat :=
  match mode with
  | .User => .ok 0
  | .Supervisor => .ok 1
  | .Reserved => .fatal
  | .Machine => .ok 3

/-- `get_trap_cause` (cpu.rs lines 245-275): exception causes follow the
RISC-V encoding; interrupt causes have the XLEN sign bit set. -/
def get_trap_cause (trap : Trap) (xlen : Xlen) : Nat :=
  let interrupt_bit : Nat := match xlen with
    | .Bit32 => 0x80000000
    | .Bit64 => 0x8000000000000000
  match trap.trap_type with
  | .InstructionAddressMisaligned => 0
  | .InstructionAccessFault => 1
  | .IllegalInstruction => 2
  | .Breakpoint => 3
  | .LoadAddressMisaligned => 4
  | .LoadAccessFault => 5
  | .StoreAddressMisaligned => 6
  | .StoreAccessFault => 7
  | .EnvironmentCallFromUMode => 8
  | .EnvironmentCallFromSMode => 9
  | .EnvironmentCallFromMMode => 11
  | .InstructionPageFault => 12
  | .LoadPageFault => 13
  | .StorePageFault => 15
  | .UserSoftwareInterrupt => interrupt_bit
  | .SupervisorSoftwareInterrupt => interrupt_bit + 1
  | .MachineSoftwareInterrupt => interrupt_bit + 3
  | .UserTimerInterrupt => interrupt_bit + 4
  | .SupervisorTimerInterrupt => interrupt_bit + 5
  | .MachineTimerInterrupt => interrupt_bit + 7
  | .UserExternalInterrupt => interrupt_bit + 8
  | .SupervisorExternalInterrupt => interrupt_bit + 9
  | .MachineExternalInterrupt => interrupt_bit + 11

/-- `get_interrupt_privilege_mode` (cpu.rs lines 277-290); calling it with
a non-interrupt trap type is a fatal panic. -/
def get_interrupt_privilege_mode (trap : Trap) : PRes PrivilegeMode :=
  match trap.trap_type with
  | .MachineSoftwareInterrupt | .MachineTimerInterrupt
  | .MachineExternalInterrupt => .ok .Machine
  | .SupervisorSoftwareInterrupt | .SupervisorTimerInterrupt
  | .SupervisorExternalInterrupt => .ok .Supervisor
  | .UserSoftwareInterrupt | .UserTimerInterrupt
  | .UserExternalInterrupt => .ok .User
  | _ => .fatal

/-- `get_instruction_format` (cpu.rs lines 382-470). -/
def get_instruction_format (instruction : Instruction) : InstructionFormat :=
  match instruction with
  | .BEQ | .BGE | .BGEU | .BLT | .BLTU | .BNE => .B
  | .CSRRC | .CSRRCI | .CSRRS | .CSRRSI | .CSRRW | .CSRRWI => .C
  | .ADDI | .ADDIW | .ANDI | .JALR
  | .LB | .LBU | .LD | .LH | .LHU | .LW | .LWU
  | .ORI | .SLLI | .SLLIW | .SLTI | .SLTIU
  | .SRLI | .SRLIW | .SRAI | .SRAIW | .XORI => .I
  | .JAL => .J
  | .FENCE => .O
  | .ADD | .ADDW
  | .AMOADDD | .AMOADDW | .AMOANDD | .AMOORD | .AMOORW | .AMOSWAPD
  | .AMOSWAPW
  | .AND | .DIV | .DIVU | .DIVUW | .DIVW | .ECALL
  | .LRD | .LRW | .MRET
  | .MUL | .MULH | .MULHU | .MULHSU | .MULW
  | .OR | .REM | .REMU | .REMUW | .REMW
  | .SCD | .SCW | .SUB | .SUBW | .SFENCEVMA
  | .SLL | .SLLW | .SLT | .SLTU
  | .SRA | .SRAW | .SRET | .SRL | .SRLW
  | .URET | .XOR => .R
  | .SB | .SD | .SH | .SW => .S
  | .AUIPC | .LUI => .U

/-- `struct Cpu` from cpu.rs: 32 integer registers (64-bit two's-complement
patterns), `pc`, the flat 4096-entry CSR file, XLEN, privilege and MMU. -/
structure Cpu where
  clock : Nat
  xlen : Xlen
  privilege_mode : PrivilegeMode
  x : Nat → Nat
  pc : Nat
  csr : Nat → Nat
  mmu : Mmu
  dump_flag : Bool

/-- `Cpu::sign_extend` (cpu.rs lines 838-846): under XLEN=32 replicate bit
31 of the value through the upper 32 bits; identity under XLEN=64. -/
def Cpu.sign_extend (c : Cpu) (value : Nat) : Nat :=
  match c.xlen with
  | .Bit32 =>
    if value &&& 0x80000000 = 0x80000000 then value ||| 0xffffffff00000000
    else value &&& 0xffffffff
  | .Bit64 => value

/-- `Cpu::unsigned_data` (cpu.rs lines 849-854). -/
def Cpu.unsigned_data (c : Cpu) (value : Nat) : Nat :=
  match c.xlen with
  | .Bit32 => value &&& 0xffffffff
  | .Bit64 => value

/-- `Cpu::decode` (cpu.rs lines 1307-1482): the flat
opcode/funct3/funct7 table; `none` is a decode failure. -/
def Cpu.decode (word : Nat) : Option Instruction :=
  let opcode := word &&& 0x7f
  let funct3 := (word >>> 12) &&& 0x7
  let funct7 := (word >>> 25) &&& 0x7f
  if opcode = 0x03 then
    match funct3 with
    | 0 => some .LB
    | 1 => some .LH
    | 2 => some .LW
    | 3 => some .LD
    | 4 => some .LBU
    | 5 => some .LHU
    | 6 => some .LWU
    | _ => none
  else if opcode = 0x0f then some .FENCE
  else if opcode = 0x13 then
    match funct3 with
    | 0 => some .ADDI
    | 1 => some .SLLI
    | 2 => some .SLTI
    | 3 => some .SLTIU
    | 4 => some .XORI
    | 5 =>
      match funct7 &&& not32 1 with
      | 0 => some .SRLI
      | 1 => some .SRLI
      | 0x20 => some .SRAI
      | _ => none
    | 6 => some .ORI
    | 7 => some .ANDI
    | _ => none
  else if opcode = 0x17 then some .AUIPC
  else if opcode = 0x1b then
    match funct3 with
    | 0 => some .ADDIW
    | 1 => some .SLLIW
    | 5 =>
      match funct7 with
      | 0 => some .SRLIW
      | 0x20 => some .SRAIW
      | _ => none
    | _ => none
  else if opcode = 0x23 then
    match funct3 with
    | 0 => some .SB
    | 1 => some .SH
    | 2 => some .SW
    | 3 => some .SD
    | _ => none
  else if opcode = 0x2f then
    match funct3 with
    | 2 =>
      match funct7 >>> 2 with
      | 0 => some .AMOADDW
      | 1 => some .AMOSWAPW
      | 2 => some .LRW
      | 3 => some .SCW
      | 8 => some .AMOORW
      | _ => none
    | 3 =>
      match funct7 >>> 2 with
      | 0 => some .AMOADDD
      | 1 => some .AMOSWAPD
      | 2 => some .LRD
      | 3 => some .SCD
      | 8 => some .AMOORD
      | 0xc => some .AMOANDD
      | _ => none
    | _ => none
  else if opcode = 0x33 then
    match funct3 with
    | 0 =>
      match funct7 with
      | 0 => some .ADD
      | 1 => some .MUL
      | 0x20 => some .SUB
      | _ => none
    | 1 =>
      match funct7 with
      | 0 => some .SLL
      | 1 => some .MULH
      | _ => none
    | 2 =>
      match funct7 with
      | 0 => some .SLT
      | 1 => some .MULHSU
      | _ => none
    | 3 =>
      match funct7 with
      | 0 => some .SLTU
      | 1 => some .MULHU
      | _ => none
    | 4 =>
      match funct7 with
      | 0 => some .XOR
      | 1 => some .DIV
      | _ => none
    | 5 =>
      match funct7 with
      | 0 => some .SRL
      | 1 => some .DIVU
      | 0x20 => some .SRA
      | _ => none
    | 6 =>
      match funct7 with
      | 0 => some .OR
      | 1 => some .REM
      | _ => none
    | 7 =>
      match funct7 with
      | 0 => some .AND
      | 1 => some .REMU
      | _ => none
    | _ => none
  else if opcode = 0x37 then some .LUI
  else if opcode = 0x3b then
    match funct3 with
    | 0 =>
      match funct7 with
      | 0 => some .ADDW
      | 1 => some .MULW
      | 0x20 => some .SUBW
      | _ => none
    | 1 => some .SLLW
    | 4 => some .DIVW
    | 5 =>
      match funct7 with
      | 0 => some .SRLW
      | 1 => some .DIVUW
      | 0x20 => some .SRAW
      | _ => none
    | 6 => some .REMW
    | 7 => some .REMUW
    | _ => none
  else if opcode = 0x63 then
    match funct3 with
    | 0 => some .BEQ
    | 1 => some .BNE
    | 4 => some .BLT
    | 5 => some .BGE
    | 6 => some .BLTU
    | 7 => some .BGEU
    | _ => none
  else if opcode = 0x67 then some .JALR
  else if opcode = 0x6f then some .JAL
  else if opcode = 0x73 then
    match funct3 with
    | 0 =>
      if funct7 = 9 then some .SFENCEVMA
      else if word = 0x00000073 then some .ECALL
      else if word = 0x00200073 then some .URET
      else if word = 0x10200073 then some .SRET
      else if word = 0x30200073 then some .MRET
      else none
    | 1 => some .CSRRW
    | 2 => some .CSRRS
    | 3 => some .CSRRC
    | 5 => some .CSRRWI
    | 6 => some .CSRRSI
    | 7 => some .CSRRCI
    | _ => none
  else none

/-- `Cpu::uncompress` (cpu.rs lines 857-1304): expand a 16-bit compressed
halfword into its canonical 32-bit encoding; reserved patterns return the
invalid word `0xffffffff`, and the unimplemented `C.FLD`/`C.FSD`/
`C.FLDSP`/`C.FSDSP`/`C.EBREAK` forms are fatal panics. All arithmetic is
`u32` arithmetic, hence the `wrap32` on assembled words. -/
def Cpu.uncompress (halfword : Nat) : PRes Nat :=
  let op := halfword &&& 0x3
  let funct3 := (halfword >>> 13) &&& 0x7
  if op = 0 then
    if funct3 = 0 then
      let rd := (halfword >>> 2) &&& 0x7
      let nzuimm :=
        ((halfword >>> 7) &&& 0x30) ||| ((halfword >>> 1) &&& 0x3e0) |||
        ((halfword >>> 4) &&& 0x4) ||| ((halfword >>> 2) &&& 0x8)
      if nzuimm ≠ 0 then
        .ok (wrap32 ((nzuimm <<< 20) ||| (2 <<< 15) ||| ((rd + 8) <<< 7) ||| 0x13))
      else .ok 0xffffffff
    else if funct3 = 1 then .fatal
    else if funct3 = 2 then
      let rs1 := (halfword >>> 7) &&& 0x7
      let rd := (halfword >>> 2) &&& 0x7
      let offset :=
        ((halfword >>> 7) &&& 0x38) ||| ((halfword >>> 4) &&& 0x4) |||
        ((halfword <<< 1) &&& 0x40)
      .ok (wrap32 ((offset <<< 20) ||| ((rs1 + 8) <<< 15) ||| (2 <<< 12) |||
        ((rd + 8) <<< 7) ||| 0x3))
    else if funct3 = 3 then
      let rs1 := (halfword >>> 7) &&& 0x7
      let rd := (halfword >>> 2) &&& 0x7
      let offset := ((halfword >>> 7) &&& 0x38) ||| ((halfword <<< 1) &&& 0xc0)
      .ok (wrap32 ((offset <<< 20) ||| ((rs1 + 8) <<< 15) ||| (3 <<< 12) |||
        ((rd + 8) <<< 7) ||| 0x3))
    else if funct3 = 4 then .ok 0xffffffff
    else if funct3 = 5 then .fatal
    else if funct3 = 6 then
      let rs1 := (halfword >>> 7) &&& 0x7
      let rs2 := (halfword >>> 2) &&& 0x7
      let offset :=
        ((halfword >>> 7) &&& 0x38) ||| ((halfword <<< 1) &&& 0x40) |||
        ((halfword >>> 4) &&& 0x4)
      let imm11_5 := (offset >>> 5) &&& 0x7f
      let imm4_0 := offset &&& 0x1f
      .ok (wrap32 ((imm11_5 <<< 25) ||| ((rs2 + 8) <<< 20) ||| ((rs1 + 8) <<< 15) |||
        (2 <<< 12) ||| (imm4_0 <<< 7) ||| 0x23))
    else
      let rs1 := (halfword >>> 7) &&& 0x7
      let rs2 := (halfword >>> 2) &&& 0x7
      let offset := ((halfword >>> 7) &&& 0x38) ||| ((halfword <<< 1) &&& 0xc0)
      let imm11_5 := (offset >>> 5) &&& 0x7f
      let imm4_0 := offset &&& 0x1f
      .ok (wrap32 ((imm11_5 <<< 25) ||| ((rs2 + 8) <<< 20) ||| ((rs1 + 8) <<< 15) |||
        (3 <<< 12) ||| (imm4_0 <<< 7) ||| 0x23))
  else if op = 1 then
    if funct3 = 0 then
      let r := (halfword >>> 7) &&& 0x1f
      let imm :=
        (if halfword &&& 0x1000 = 0x1000 then 0xffffffc0 else 0) |||
        ((halfword >>> 7) &&& 0x20) ||| ((halfword >>> 2) &&& 0x1f)
      if r = 0 ∧ imm = 0 then .ok 0x13
      else if r ≠ 0 then
        .ok (wrap32 ((imm <<< 20) ||| (r <<< 15) ||| (r <<< 7) ||| 0x13))
      else .ok 0xffffffff
    else if funct3 = 1 then
      let r := (halfword >>> 7) &&& 0x1f
      let imm :=
        (if halfword &&& 0x1000 = 0x1000 then 0xffffffc0 else 0) |||
        ((halfword >>> 7) &&& 0x20) ||| ((halfword >>> 2) &&& 0x1f)
      if r ≠ 0 then
        .ok (wrap32 ((imm <<< 20) ||| (r <<< 15) ||| (r <<< 7) ||| 0x1b))
      else .ok 0xffffffff
    else if funct3 = 2 then
      let r := (halfword >>> 7) &&& 0x1f
      let imm :=
        (if halfword &&& 0x1000 = 0x1000 then 0xffffffc0 else 0) |||
        ((halfword >>> 7) &&& 0x20) ||| ((halfword >>> 2) &&& 0x1f)
      if r ≠ 0 then .ok (wrap32 ((imm <<< 20) ||| (r <<< 7) ||| 0x13))
      else .ok 0xffffffff
    else if funct3 = 3 then
      let r := (halfword >>> 7) &&& 0x1f
      if r = 2 then
        let imm :=
          (if halfword &&& 0x1000 = 0x1000 then 0xfffffc00 else 0) |||
          ((halfword >>> 3) &&& 0x200) ||| ((halfword >>> 2) &&& 0x10) |||
          ((halfword <<< 1) &&& 0x40) ||| ((halfword <<< 4) &&& 0x180) |||
          ((halfword <<< 3) &&& 0x20)
        if imm ≠ 0 then
          .ok (wrap32 ((imm <<< 20) ||| (r <<< 15) ||| (r <<< 7) ||| 0x13))
        else .ok 0xffffffff
      else if r ≠ 0 then
        let nzimm :=
          (if halfword &&& 0x1000 = 0x1000 then 0xfffc0000 else 0) |||
          ((halfword <<< 5) &&& 0x20000) ||| ((halfword <<< 10) &&& 0x1f000)
        if nzimm ≠ 0 then .ok (wrap32 (nzimm ||| (r <<< 7) ||| 0x37))
        else .ok 0xffffffff
      else .ok 0xffffffff
    else if funct3 = 4 then
      let funct2 := (halfword >>> 10) &&& 0x3
      if funct2 = 0 then
        let shamt := ((halfword >>> 7) &&& 0x20) ||| ((halfword >>> 2) &&& 0x1f)
        let rs1 := (halfword >>> 7) &&& 0x7
        .ok (wrap32 ((shamt <<< 20) ||| ((rs1 + 8) <<< 15) ||| (5 <<< 12) |||
          ((rs1 + 8) <<< 7) ||| 0x13))
      else if funct2 = 1 then
        let shamt := ((halfword >>> 7) &&& 0x20) ||| ((halfword >>> 2) &&& 0x1f)
        let rs1 := (halfword >>> 7) &&& 0x7
        .ok (wrap32 ((0x20 <<< 25) ||| (shamt <<< 20) ||| ((rs1 + 8) <<< 15) |||
          (5 <<< 12) ||| ((rs1 + 8) <<< 7) ||| 0x13))
      else if funct2 = 2 then
        let r := (halfword >>> 7) &&& 0x7
        let imm :=
          (if halfword &&& 0x1000 = 0x1000 then 0xffffffc0 else 0) |||
          ((halfword >>> 7) &&& 0x20) ||| ((halfword >>> 2) &&& 0x1f)
        .ok (wrap32 ((imm <<< 20) ||| ((r + 8) <<< 15) ||| (7 <<< 12) |||
          ((r + 8) <<< 7) ||| 0x13))
      else
        let funct1 := (halfword >>> 12) &&& 1
        let funct2_2 := (halfword >>> 5) &&& 0x3
        let rs1 := (halfword >>> 7) &&& 0x7
        let rs2 := (halfword >>> 2) &&& 0x7
        if funct1 = 0 then
          if funct2_2 = 0 then
            .ok (wrap32 ((0x20 <<< 25) ||| ((rs2 + 8) <<< 20) |||
              ((rs1 + 8) <<< 15) ||| ((rs1 + 8) <<< 7) ||| 0x33))
          else if funct2_2 = 1 then
            .ok (wrap32 (((rs2 + 8) <<< 20) ||| ((rs1 + 8) <<< 15) |||
              (4 <<< 12) ||| ((rs1 + 8) <<< 7) ||| 0x33))
          else if funct2_2 = 2 then
            .ok (wrap32 (((rs2 + 8) <<< 20) ||| ((rs1 + 8) <<< 15) |||
              (6 <<< 12) ||| ((rs1 + 8) <<< 7) ||| 0x33))
          else
            .ok (wrap32 (((rs2 + 8) <<< 20) ||| ((rs1 + 8) <<< 15) |||
              (7 <<< 12) ||| ((rs1 + 8) <<< 7) ||| 0x33))
        else
          if funct2_2 = 0 then
            .ok (wrap32 ((0x20 <<< 25) ||| ((rs2 + 8) <<< 20) |||
              ((rs1 + 8) <<< 15) ||| ((rs1 + 8) <<< 7) ||| 0x3b))
          else if funct2_2 = 1 then
            .ok (wrap32 (((rs2 + 8) <<< 20) ||| ((rs1 + 8) <<< 15) |||
              ((rs1 + 8) <<< 7) ||| 0x3b))
          else .ok 0xffffffff
    else if funct3 = 5 then
      let offset :=
        (if halfword &&& 0x1000 = 0x1000 then 0xfffff000 else 0) |||
        ((halfword >>> 1) &&& 0x800) ||| ((halfword >>> 7) &&& 0x10) |||
        ((halfword >>> 1) &&& 0x300) ||| ((halfword <<< 2) &&& 0x400) |||
        ((halfword >>> 1) &&& 0x40) ||| ((halfword <<< 1) &&& 0x80) |||
        ((halfword >>> 2) &&& 0xe) ||| ((halfword <<< 3) &&& 0x20)
      let imm :=
        ((offset >>> 1) &&& 0x80000) ||| ((offset <<< 8) &&& 0x7fe00) |||
        ((offset >>> 3) &&& 0x100) ||| ((offset >>> 12) &&& 0xff)
      .ok (wrap32 ((imm <<< 12) ||| 0x6f))
    else if funct3 = 6 then
      let r := (halfword >>> 7) &&& 0x7
      let offset :=
        (if halfword &&& 0x1000 = 0x1000 then 0xfffffe00 else 0) |||
        ((halfword >>> 4) &&& 0x100) ||| ((halfword >>> 7) &&& 0x18) |||
        ((halfword <<< 1) &&& 0xc0) ||| ((halfword >>> 2) &&& 0x6) |||
        ((halfword <<< 3) &&& 0x20)
      let imm2 := ((offset >>> 6) &&& 0x40) ||| ((offset >>> 5) &&& 0x3f)
      let imm1 := (offset &&& 0x1e) ||| ((offset >>> 11) &&& 0x1)
      .ok (wrap32 ((imm2 <<< 25) ||| ((r + 8) <<< 20) ||| (imm1 <<< 7) ||| 0x63))
    else
      let r := (halfword >>> 7) &&& 0x7
      let offset :=
        (if halfword &&& 0x1000 = 0x1000 then 0xfffffe00 else 0) |||
        ((halfword >>> 4) &&& 0x100) ||| ((halfword >>> 7) &&& 0x18) |||
        ((halfword <<< 1) &&& 0xc0) ||| ((halfword >>> 2) &&& 0x6) |||
        ((halfword <<< 3) &&& 0x20)
      let imm2 := ((offset >>> 6) &&& 0x40) ||| ((offset >>> 5) &&& 0x3f)
      let imm1 := (offset &&& 0x1e) ||| ((offset >>> 11) &&& 0x1)
      .ok (wrap32 ((imm2 <<< 25) ||| ((r + 8) <<< 20) ||| (1 <<< 12) |||
        (imm1 <<< 7) ||| 0x63))
  else if op = 2 then
    if funct3 = 0 then
      let r := (halfword >>> 7) &&& 0x1f
      let shamt := ((halfword >>> 7) &&& 0x20) ||| ((halfword >>> 2) &&& 0x1f)
      if r ≠ 0 then
        .ok (wrap32 ((shamt <<< 20) ||| (r <<< 15) ||| (1 <<< 12) ||| (r <<< 7) |||
          0x13))
      else .ok 0xffffffff
    else if funct3 = 1 then .fatal
    else if funct3 = 2 then
      let r := (halfword >>> 7) &&& 0x1f
      let offset :=
        ((halfword >>> 7) &&& 0x20) ||| ((halfword >>> 2) &&& 0x1c) |||
        ((halfword <<< 4) &&& 0xc0)
      if r ≠ 0 then
        .ok (wrap32 ((offset <<< 20) ||| (2 <<< 15) ||| (2 <<< 12) ||| (r <<< 7) |||
          0x3))
      else .ok 0xffffffff
    else if funct3 = 3 then
      let rd := (halfword >>> 7) &&& 0x1f
      let offset :=
        ((halfword >>> 7) &&& 0x20) ||| ((halfword >>> 2) &&& 0x18) |||
        ((halfword <<< 4) &&& 0x1c0)
      if rd ≠ 0 then
        .ok (wrap32 ((offset <<< 20) ||| (2 <<< 15) ||| (3 <<< 12) ||| (rd <<< 7) |||
          0x3))
      else .ok 0xffffffff
    else if funct3 = 4 then
      let funct1 := (halfword >>> 12) &&& 1
      let rs1 := (halfword >>> 7) &&& 0x1f
      let rs2 := (halfword >>> 2) &&& 0x1f
      if funct1 = 0 then
        if rs1 ≠ 0 ∧ rs2 = 0 then .ok (wrap32 ((rs1 <<< 15) ||| 0x67))
        else if rs1 ≠ 0 ∧ rs2 ≠ 0 then
          .ok (wrap32 ((rs2 <<< 20) ||| (rs1 <<< 7) ||| 0x33))
        else .ok 0xffffffff
      else
        if rs1 = 0 ∧ rs2 = 0 then .fatal
        else if rs1 ≠ 0 ∧ rs2 = 0 then
          .ok (wrap32 ((rs1 <<< 15) ||| (1 <<< 7) ||| 0x67))
        else if rs1 ≠ 0 ∧ rs2 ≠ 0 then
          .ok (wrap32 ((rs2 <<< 20) ||| (rs1 <<< 15) ||| (rs1 <<< 7) ||| 0x33))
        else .ok 0xffffffff
    else if funct3 = 5 then .fatal
    else if funct3 = 6 then
      let rs2 := (halfword >>> 2) &&& 0x1f
      let offset := ((halfword >>> 7) &&& 0x3c) ||| ((halfword >>> 1) &&& 0xc0)
      let imm11_5 := (offset >>> 5) &&& 0x3f
      let imm4_0 := offset &&& 0x1f
      .ok (wrap32 ((imm11_5 <<< 25) ||| (rs2 <<< 20) ||| (2 <<< 15) |||
        (2 <<< 12) ||| (imm4_0 <<< 7) ||| 0x23))
    else
      let rs2 := (halfword >>> 2) &&& 0x1f
      let offset := ((halfword >>> 7) &&& 0x38) ||| ((halfword >>> 1) &&& 0x1c0)
      let imm11_5 := (offset >>> 5) &&& 0x3f
      let imm4_0 := offset &&& 0x1f
      .ok (wrap32 ((imm11_5 <<< 25) ||| (rs2 <<< 20) ||| (2 <<< 15) |||
        (3 <<< 12) ||| (imm4_0 <<< 7) ||| 0x23))
  else .ok 0xffffffff

/-- Pattern of an integer modulo `2^128` (for the `u128`/`i128` casts in
the MULH family). -/
def ofInt128 (z : Int) : Nat := (z % (2 ^ 128 : Int)).toNat

/-- Register write `self.x[i] = v` (an array store in the source). -/
def Cpu.setx (c : Cpu) (i v : Nat) : Cpu := { c with x := updMap c.x i v }

/-- `Cpu::has_csr_access_privilege` (cpu.rs lines 764-767): the top two
bits of a CSR address are the lowest privilege allowed to access it. -/
def Cpu.has_csr_access_privilege (c : Cpu) (address : Nat) : PRes Bool :=
  match get_privilege_encoding c.privilege_mode with
  | .fatal => .fatal
  | .ok encoding =>
    let privilege := (address >>> 8) &&& 0x3
    .ok (decide (privilege ≤ encoding))

/-- `Cpu::read_csr` (cpu.rs lines 769-777): privilege-checked CSR read;
a violation raises `IllegalInstruction` with `tval = pc - 4`. -/
def Cpu.read_csr (c : Cpu) (address : Nat) : PRes (Except Trap Nat) :=
  match c.has_csr_access_privilege address with
  | .fatal => .fatal
  | .ok true => .ok (.ok (c.csr address))
  | .ok false => .ok (.error ⟨.IllegalInstruction, sub64 c.pc 4⟩)

/-- `Cpu::write_csr_raw`. -/
def Cpu.write_csr_raw (c : Cpu) (address value : Nat) : Cpu :=
  { c with csr := updMap c.csr address value }

/-- `Cpu::update_addressing_mode` (cpu.rs lines 813-835): re-derive the
MMU addressing mode and root PPN from a `satp` write; an unknown mode
under XLEN=64 is a fatal panic. -/
def Cpu.update_addressing_mode (c : Cpu) (value : Nat) : PRes Cpu :=
  match (match c.xlen with
         | .Bit32 =>
           if value &&& 0x80000000 = 0 then PRes.ok AddressingMode.NoTranslation
           else PRes.ok AddressingMode.SV32
         | .Bit64 =>
           if value >>> 60 = 0 then PRes.ok AddressingMode.NoTranslation
           else if value >>> 60 = 8 then PRes.ok AddressingMode.SV39
           else if value >>> 60 = 9 then PRes.ok AddressingMode.SV48
           else PRes.fatal) with
  | .fatal => .fatal
  | .ok addressing_mode =>
    let ppn := match c.xlen with
      | .Bit32 => value &&& 0x3fffff
      | .Bit64 => value &&& 0xfffffffffff
    .ok { c with mmu :=
      (c.mmu.update_addressing_mode addressing_mode).update_ppn ppn }

/-- `Cpu::write_csr` (cpu.rs lines 779-804): privilege-checked CSR write;
writing `satp` republishes the addressing mode to the MMU. -/
def Cpu.write_csr (c : Cpu) (address value : Nat) : PRes (Except Trap Cpu) :=
  match c.has_csr_access_privilege address with
  | .fatal => .fatal
  | .ok true =>
    let c := c.write_csr_raw address value
    if address = CSR_SATP_ADDRESS then
      match c.update_addressing_mode value with
      | .fatal => .fatal
      | .ok c => .ok (.ok c)
    else .ok (.ok c)
  | .ok false => .ok (.error ⟨.IllegalInstruction, sub64 c.pc 4⟩)

/-- The body of `Cpu::operate` (cpu.rs lines 1484-2187): the format/opcode
match, before the final hard-wired `x[0] = 0`. In the source the trap
(`Err`) returns keep the mutations made so far, so traps carry the updated
CPU. Division by a divisor whose relevant truncation is zero but whose
full-width pattern is not is a Rust runtime panic (`fatal`); the default
arms of each format match are the source's unreachable
`not supported yet` panics. -/
def Cpu.operate_main (c : Cpu) (word : Nat) (instruction : Instruction)
    (instruction_address : Nat) : Res Cpu Unit :=
  match get_instruction_format instruction with
  | .B =>
    let rs1 := (word &&& 0x000f8000) >>> 15
    let rs2 := (word &&& 0x01f00000) >>> 20
    let imm := sext32 (
      (if word &&& 0x80000000 = 0x80000000 then 0xfffff000 else 0) |||
      ((word &&& 0x00000080) <<< 4) |||
      ((word &&& 0x7e000000) >>> 20) |||
      ((word &&& 0x00000f00) >>> 7))
    match instruction with
    | .BEQ =>
      if c.sign_extend (c.x rs1) = c.sign_extend (c.x rs2) then
        .ok () { c with pc := add64 instruction_address imm }
      else .ok () c
    | .BGE =>
      if sge64 (c.sign_extend (c.x rs1)) (c.sign_extend (c.x rs2)) then
        .ok () { c with pc := add64 instruction_address imm }
      else .ok () c
    | .BGEU =>
      if c.unsigned_data (c.x rs2) ≤ c.unsigned_data (c.x rs1) then
        .ok () { c with pc := add64 instruction_address imm }
      else .ok () c
    | .BLT =>
      if slt64 (c.sign_extend (c.x rs1)) (c.sign_extend (c.x rs2)) then
        .ok () { c with pc := add64 instruction_address imm }
      else .ok () c
    | .BLTU =>
      if c.unsigned_data (c.x rs1) < c.unsigned_data (c.x rs2) then
        .ok () { c with pc := add64 instruction_address imm }
      else .ok () c
    | .BNE =>
      if c.sign_extend (c.x rs1) ≠ c.sign_extend (c.x rs2) then
        .ok () { c with pc := add64 instruction_address imm }
      else .ok () c
    | _ => .fatal
  | .C =>
    let csrAddr := (word >>> 20) &&& 0xfff
    let rs := (word >>> 15) &&& 0x1f
    let rd := (word >>> 7) &&& 0x1f
    match instruction with
    | .CSRRC =>
      match c.read_csr csrAddr with
      | .fatal => .fatal
      | .ok (.error e) => .trap e c
      | .ok (.ok data) =>
        let tmp := c.x rs
        let c := c.setx rd (c.sign_extend data)
        match c.write_csr csrAddr (c.x rd &&& not64 tmp) with
        | .fatal => .fatal
        | .ok (.error e) => .trap e c
        | .ok (.ok c) => .ok () c
    | .CSRRCI =>
      match c.read_csr csrAddr with
      | .fatal => .fatal
      | .ok (.error e) => .trap e c
      | .ok (.ok data) =>
        let c := c.setx rd (c.sign_extend data)
        match c.write_csr csrAddr (c.x rd &&& not64 rs) with
        | .fatal => .fatal
        | .ok (.error e) => .trap e c
        | .ok (.ok c) => .ok () c
    | .CSRRS =>
      match c.read_csr csrAddr with
      | .fatal => .fatal
      | .ok (.error e) => .trap e c
      | .ok (.ok data) =>
        let tmp := c.x rs
        let c := c.setx rd (c.sign_extend data)
        match c.write_csr csrAddr (c.unsigned_data (c.x rd ||| tmp)) with
        | .fatal => .fatal
        | .ok (.error e) => .trap e c
        | .ok (.ok c) => .ok () c
    | .CSRRSI =>
      match c.read_csr csrAddr with
      | .fatal => .fatal
      | .ok (.error e) => .trap e c
      | .ok (.ok data) =>
        let c := c.setx rd (c.sign_extend data)
        match c.write_csr csrAddr (c.unsigned_data (c.x rd ||| rs)) with
        | .fatal => .fatal
        | .ok (.error e) => .trap e c
        | .ok (.ok c) => .ok () c
    | .CSRRW =>
      match c.read_csr csrAddr with
      | .fatal => .fatal
      | .ok (.error e) => .trap e c
      | .ok (.ok data) =>
        let tmp := c.x rs
        let c := c.setx rd (c.sign_extend data)
        match c.write_csr csrAddr (c.unsigned_data tmp) with
        | .fatal => .fatal
        | .ok (.error e) => .trap e c
        | .ok (.ok c) => .ok () c
    | .CSRRWI =>
      match c.read_csr csrAddr with
      | .fatal => .fatal
      | .ok (.error e) => .trap e c
      | .ok (.ok data) =>
        let c := c.setx rd (c.sign_extend data)
        match c.write_csr csrAddr rs with
        | .fatal => .fatal
        | .ok (.error e) => .trap e c
        | .ok (.ok c) => .ok () c
    | _ => .fatal
  | .I =>
    let rd := (word >>> 7) &&& 0x1f
    let rs1 := (word >>> 15) &&& 0x1f
    let imm := sext32 (
      (if word &&& 0x80000000 = 0x80000000 then 0xfffff800 else 0) |||
      ((word >>> 20) &&& 0x000007ff))
    match instruction with
    | .ADDI => .ok () (c.setx rd (c.sign_extend (add64 (c.x rs1) imm)))
    | .ADDIW => .ok () (c.setx rd (sext32 (add64 (c.x rs1) imm)))
    | .ANDI => .ok () (c.setx rd (c.sign_extend (c.x rs1 &&& imm)))
    | .JALR =>
      let tmp := c.sign_extend c.pc
      let c := { c with pc := add64 (c.x rs1) imm }
      .ok () (c.setx rd tmp)
    | .LB =>
      match c.mmu.load (add64 (c.x rs1) imm) with
      | .fatal => .fatal
      | .trap e m => .trap e { c with mmu := m }
      | .ok data m => .ok () ({ c with mmu := m }.setx rd (sext8 data))
    | .LBU =>
      match c.mmu.load (add64 (c.x rs1) imm) with
      | .fatal => .fatal
      | .trap e m => .trap e { c with mmu := m }
      | .ok data m => .ok () ({ c with mmu := m }.setx rd data)
    | .LD =>
      match c.mmu.load_doubleword (add64 (c.x rs1) imm) with
      | .fatal => .fatal
      | .trap e m => .trap e { c with mmu := m }
      | .ok data m => .ok () ({ c with mmu := m }.setx rd data)
    | .LH =>
      match c.mmu.load_halfword (add64 (c.x rs1) imm) with
      | .fatal => .fatal
      | .trap e m => .trap e { c with mmu := m }
      | .ok data m => .ok () ({ c with mmu := m }.setx rd (sext16 data))
    | .LHU =>
      match c.mmu.load_halfword (add64 (c.x rs1) imm) with
      | .fatal => .fatal
      | .trap e m => .trap e { c with mmu := m }
      | .ok data m => .ok () ({ c with mmu := m }.setx rd data)
    | .LW =>
      match c.mmu.load_word (add64 (c.x rs1) imm) with
      | .fatal => .fatal
      | .trap e m => .trap e { c with mmu := m }
      | .ok data m => .ok () ({ c with mmu := m }.setx rd (sext32 data))
    | .LWU =>
      match c.mmu.load_word (add64 (c.x rs1) imm) with
      | .fatal => .fatal
      | .trap e m => .trap e { c with mmu := m }
      | .ok data m => .ok () ({ c with mmu := m }.setx rd data)
    | .ORI => .ok () (c.setx rd (c.sign_extend (c.x rs1 ||| imm)))
    | .SLLI =>
      let shamt := imm &&& (match c.xlen with
        | .Bit32 => 0x1f
        | .Bit64 => 0x3f)
      .ok () (c.setx rd (c.sign_extend (wrap64 (c.x rs1 <<< shamt))))
    | .SLLIW =>
      let shamt := imm &&& 0x1f
      .ok () (c.setx rd (sext32 (c.x rs1 <<< shamt)))
    | .SLTI => .ok () (c.setx rd (if slt64 (c.x rs1) imm then 1 else 0))
    | .SLTIU =>
      .ok () (c.setx rd
        (if c.unsigned_data (c.x rs1) < c.unsigned_data imm then 1 else 0))
    | .SRAI =>
      let shamt := imm &&& (match c.xlen with
        | .Bit32 => 0x1f
        | .Bit64 => 0x3f)
      .ok () (c.setx rd (c.sign_extend (sar64 (c.x rs1) shamt)))
    | .SRAIW =>
      let shamt := imm &&& 0x1f
      .ok () (c.setx rd (sext32 (sar32 (c.x rs1) shamt)))
    | .SRLI =>
      let shamt := imm &&& (match c.xlen with
        | .Bit32 => 0x1f
        | .Bit64 => 0x3f)
      .ok () (c.setx rd (c.sign_extend (c.unsigned_data (c.x rs1) >>> shamt)))
    | .SRLIW =>
      let shamt := imm &&& 0x1f
      .ok () (c.setx rd (sext32 (wrap32 (c.x rs1) >>> shamt)))
    | .XORI => .ok () (c.setx rd (c.sign_extend (c.x rs1 ^^^ imm)))
    | _ => .fatal
  | .J =>
    let rd := (word >>> 7) &&& 0x1f
    let imm := sext32 (
      (if word &&& 0x80000000 = 0x80000000 then 0xfff00000 else 0) |||
      (word &&& 0x000ff000) |||
      ((word &&& 0x00100000) >>> 9) |||
      ((word &&& 0x7fe00000) >>> 20))
    match instruction with
    | .JAL =>
      let c := c.setx rd (c.sign_extend c.pc)
      .ok () { c with pc := add64 instruction_address imm }
    | _ => .fatal
  | .O =>
    match instruction with
    | .FENCE => .ok () c
    | _ => .fatal
  | .R =>
    let rd := (word >>> 7) &&& 0x1f
    let rs1 := (word >>> 15) &&& 0x1f
    let rs2 := (word >>> 20) &&& 0x1f
    match instruction with
    | .ADD => .ok () (c.setx rd (c.sign_extend (add64 (c.x rs1) (c.x rs2))))
    | .ADDW => .ok () (c.setx rd (sext32 (add64 (c.x rs1) (c.x rs2))))
    | .AMOADDD =>
      match c.mmu.load_doubleword (c.unsigned_data (c.x rs1)) with
      | .fatal => .fatal
      | .trap e m => .trap e { c with mmu := m }
      | .ok tmp m =>
        let c := { c with mmu := m }
        match c.mmu.store_doubleword (c.unsigned_data (c.x rs1))
            (add64 (c.x rs2) tmp) with
        | .fatal => .fatal
        | .trap e m => .trap e { c with mmu := m }
        | .ok _ m => .ok () ({ c with mmu := m }.setx rd tmp)
    | .AMOADDW =>
      match c.mmu.load_word (c.unsigned_data (c.x rs1)) with
      | .fatal => .fatal
      | .trap e m => .trap e { c with mmu := m }
      | .ok tmp m =>
        let c := { c with mmu := m }
        match c.mmu.store_word (c.unsigned_data (c.x rs1))
            (wrap32 (add64 (c.x rs2) tmp)) with
        | .fatal => .fatal
        | .trap e m => .trap e { c with mmu := m }
        | .ok _ m => .ok () ({ c with mmu := m }.setx rd (sext32 tmp))
    | .AMOANDD =>
      match c.mmu.load_doubleword (c.unsigned_data (c.x rs1)) with
      | .fatal => .fatal
      | .trap e m => .trap e { c with mmu := m }
      | .ok tmp m =>
        let c := { c with mmu := m }
        match c.mmu.store_doubleword (c.unsigned_data (c.x rs1))
            (c.x rs2 &&& tmp) with
        | .fatal => .fatal
        | .trap e m => .trap e { c with mmu := m }
        | .ok _ m => .ok () ({ c with mmu := m }.setx rd (sext32 tmp))
    | .AMOORD =>
      match c.mmu.load_doubleword (c.unsigned_data (c.x rs1)) with
      | .fatal => .fatal
      | .trap e m => .trap e { c with mmu := m }
      | .ok tmp m =>
        let c := { c with mmu := m }
        match c.mmu.store_doubleword (c.unsigned_data (c.x rs1))
            (c.x rs2 ||| tmp) with
        | .fatal => .fatal
        | .trap e m => .trap e { c with mmu := m }
        | .ok _ m => .ok () ({ c with mmu := m }.setx rd tmp)
    | .AMOORW =>
      match c.mmu.load_word (c.unsigned_data (c.x rs1)) with
      | .fatal => .fatal
      | .trap e m => .trap e { c with mmu := m }
      | .ok tmp m =>
        let c := { c with mmu := m }
        match c.mmu.store_word (c.unsigned_data (c.x rs1))
            (wrap32 (c.x rs2 ||| tmp)) with
        | .fatal => .fatal
        | .trap e m => .trap e { c with mmu := m }
        | .ok _ m => .ok () ({ c with mmu := m }.setx rd (sext32 tmp))
    | .AMOSWAPD =>
      match c.mmu.load_doubleword (c.unsigned_data (c.x rs1)) with
      | .fatal => .fatal
      | .trap e m => .trap e { c with mmu := m }
      | .ok tmp m =>
        let c := { c with mmu := m }
        match c.mmu.store_doubleword (c.unsigned_data (c.x rs1)) (c.x rs2) with
        | .fatal => .fatal
        | .trap e m => .trap e { c with mmu := m }
        | .ok _ m => .ok () ({ c with mmu := m }.setx rd tmp)
    | .AMOSWAPW =>
      match c.mmu.load_word (c.unsigned_data (c.x rs1)) with
      | .fatal => .fatal
      | .trap e m => .trap e { c with mmu := m }
      | .ok tmp m =>
        let c := { c with mmu := m }
        match c.mmu.store_word (c.unsigned_data (c.x rs1))
            (wrap32 (c.x rs2)) with
        | .fatal => .fatal
        | .trap e m => .trap e { c with mmu := m }
        | .ok _ m => .ok () ({ c with mmu := m }.setx rd (sext32 tmp))
    | .AND => .ok () (c.setx rd (c.sign_extend (c.x rs1 &&& c.x rs2)))
    | .DIV =>
      if c.x rs2 = 0 then .ok () (c.setx rd 0xffffffffffffffff)
      else .ok () (c.setx rd (c.sign_extend (idiv64 (c.x rs1) (c.x rs2))))
    | .DIVU =>
      if c.x rs2 = 0 then .ok () (c.setx rd 0xffffffffffffffff)
      else if c.unsigned_data (c.x rs2) = 0 then .fatal
      else .ok () (c.setx rd (c.sign_extend
        (c.unsigned_data (c.x rs1) / c.unsigned_data (c.x rs2))))
    | .DIVUW =>
      if c.x rs2 = 0 then .ok () (c.setx rd 0xffffffffffffffff)
      else if wrap32 (c.x rs2) = 0 then .fatal
      else .ok () (c.setx rd (sext32 (wrap32 (c.x rs1) / wrap32 (c.x rs2))))
    | .DIVW =>
      if c.x rs2 = 0 then .ok () (c.setx rd 0xffffffffffffffff)
      else if wrap32 (c.x rs2) = 0 then .fatal
      else .ok () (c.setx rd (c.sign_extend (sext32 (idiv32 (c.x rs1) (c.x rs2)))))
    | .ECALL =>
      match (match c.privilege_mode with
             | .User => PRes.ok (CSR_UEPC_ADDRESS, TrapType.EnvironmentCallFromUMode)
             | .Supervisor =>
               PRes.ok (CSR_SEPC_ADDRESS, TrapType.EnvironmentCallFromSMode)
             | .Machine =>
               PRes.ok (CSR_MEPC_ADDRESS, TrapType.EnvironmentCallFromMMode)
             | .Reserved => PRes.fatal) with
      | .fatal => .fatal
      | .ok (csr_epc_address, exception_type) =>
        let c := c.write_csr_raw csr_epc_address instruction_address
        .trap ⟨exception_type, instruction_address⟩ c
    | .LRD =>
      match c.mmu.load_doubleword (c.x rs1) with
      | .fatal => .fatal
      | .trap e m => .trap e { c with mmu := m }
      | .ok data m => .ok () ({ c with mmu := m }.setx rd data)
    | .LRW =>
      match c.mmu.load_word (c.x rs1) with
      | .fatal => .fatal
      | .trap e m => .trap e { c with mmu := m }
      | .ok data m => .ok () ({ c with mmu := m }.setx rd (sext32 data))
    | .MRET =>
      match c.read_csr CSR_MEPC_ADDRESS with
      | .fatal => .fatal
      | .ok (.error e) => .trap e c
      | .ok (.ok data) =>
        let c := { c with pc := data }
        let status := c.csr CSR_MSTATUS_ADDRESS
        let mpie := (status >>> 7) &&& 1
        let mpp := (status >>> 11) &&& 0x3
        let new_status := (status &&& not64 0x1888) ||| (mpie <<< 3) ||| (1 <<< 7)
        let c := c.write_csr_raw CSR_MSTATUS_ADDRESS new_status
        match (match mpp with
               | 0 => PRes.ok PrivilegeMode.User
               | 1 => PRes.ok PrivilegeMode.Supervisor
               | 3 => PRes.ok PrivilegeMode.Machine
               | _ => PRes.fatal) with
        | .fatal => .fatal
        | .ok mode =>
          let c := { c with privilege_mode := mode }
          .ok () { c with mmu := c.mmu.update_privilege_mode c.privilege_mode }
    | .SRET =>
      match c.read_csr CSR_SEPC_ADDRESS with
      | .fatal => .fatal
      | .ok (.error e) => .trap e c
      | .ok (.ok data) =>
        let c := { c with pc := data }
        let status := c.csr CSR_SSTATUS_ADDRESS
        let spie := (status >>> 5) &&& 1
        let spp := (status >>> 8) &&& 1
        let new_status := (status &&& not64 0x122) ||| (spie <<< 1) ||| (1 <<< 5)
        let c := c.write_csr_raw CSR_SSTATUS_ADDRESS new_status
        match (match spp with
               | 0 => PRes.ok PrivilegeMode.User
               | 1 => PRes.ok PrivilegeMode.Supervisor
               | _ => PRes.fatal) with
        | .fatal => .fatal
        | .ok mode =>
          let c := { c with privilege_mode := mode }
          .ok () { c with mmu := c.mmu.update_privilege_mode c.privilege_mode }
    | .URET =>
      match c.read_csr CSR_UEPC_ADDRESS with
      | .fatal => .fatal
      | .ok (.error e) => .trap e c
      | .ok (.ok data) =>
        let _c := { c with pc := data }
        .fatal
    | .MUL => .ok () (c.setx rd (c.sign_extend (mul64 (c.x rs1) (c.x rs2))))
    | .MULH =>
      match c.xlen with
      | .Bit32 =>
        .ok () (c.setx rd (c.sign_extend
          (sar64 (ofInt64 (toSigned64 (c.x rs1) * toSigned64 (c.x rs2))) 32)))
      | .Bit64 =>
        .ok () (c.setx rd
          (ofInt64 (Int.fdiv (toSigned64 (c.x rs1) * toSigned64 (c.x rs2))
            (2 ^ 64))))
    | .MULHU =>
      match c.xlen with
      | .Bit32 =>
        .ok () (c.setx rd (c.sign_extend
          ((wrap32 (c.x rs1) * wrap32 (c.x rs2)) >>> 32)))
      | .Bit64 =>
        .ok () (c.setx rd ((wrap64 (c.x rs1) * wrap64 (c.x rs2)) >>> 64))
    | .MULHSU =>
      match c.xlen with
      | .Bit32 =>
        .ok () (c.setx rd (c.sign_extend
          (sar64 (ofInt64 (toSigned64 (c.x rs1) * (wrap32 (c.x rs2) : Int))) 32)))
      | .Bit64 =>
        .ok () (c.setx rd (wrap64
          ((ofInt128 (toSigned64 (c.x rs1)) * wrap64 (c.x rs2)) % 2 ^ 128 >>> 64)))
    | .MULW =>
      .ok () (c.setx rd (c.sign_extend
        (sext32 (ofInt32 (toSigned32 (c.x rs1) * toSigned32 (c.x rs2))))))
    | .OR => .ok () (c.setx rd (c.sign_extend (c.x rs1 ||| c.x rs2)))
    | .REM =>
      if c.x rs2 = 0 then .ok () (c.setx rd (c.x rs1))
      else .ok () (c.setx rd (c.sign_extend (irem64 (c.x rs1) (c.x rs2))))
    | .REMU =>
      if c.x rs2 = 0 then .ok () (c.setx rd (c.x rs1))
      else if c.unsigned_data (c.x rs2) = 0 then .fatal
      else .ok () (c.setx rd (c.sign_extend
        (c.unsigned_data (c.x rs1) % c.unsigned_data (c.x rs2))))
    | .REMUW =>
      if c.x rs2 = 0 then .ok () (c.setx rd (c.x rs1))
      else if wrap32 (c.x rs2) = 0 then .fatal
      else .ok () (c.setx rd (c.sign_extend
        (sext32 (wrap32 (c.x rs1) % wrap32 (c.x rs2)))))
    | .REMW =>
      if c.x rs2 = 0 then .ok () (c.setx rd (c.x rs1))
      else if wrap32 (c.x rs2) = 0 then .fatal
      else .ok () (c.setx rd (c.sign_extend (sext32 (irem32 (c.x rs1) (c.x rs2)))))
    | .SCD =>
      match c.mmu.store_doubleword (c.x rs1) (c.x rs2) with
      | .fatal => .fatal
      | .trap e m => .trap e { c with mmu := m }
      | .ok _ m => .ok () ({ c with mmu := m }.setx rd 0)
    | .SCW =>
      match c.mmu.store_word (c.x rs1) (wrap32 (c.x rs2)) with
      | .fatal => .fatal
      | .trap e m => .trap e { c with mmu := m }
      | .ok _ m => .ok () ({ c with mmu := m }.setx rd 0)
    | .SFENCEVMA => .ok () c
    | .SUB => .ok () (c.setx rd (c.sign_extend (sub64 (c.x rs1) (c.x rs2))))
    | .SUBW => .ok () (c.setx rd (sext32 (sub64 (c.x rs1) (c.x rs2))))
    | .SLL =>
      .ok () (c.setx rd (c.sign_extend (wshl64 (c.x rs1) (wrap32 (c.x rs2)))))
    | .SLLW =>
      .ok () (c.setx rd (sext32 (wshl32 (wrap32 (c.x rs1)) (wrap32 (c.x rs2)))))
    | .SLT => .ok () (c.setx rd (if slt64 (c.x rs1) (c.x rs2) then 1 else 0))
    | .SLTU =>
      .ok () (c.setx rd
        (if c.unsigned_data (c.x rs1) < c.unsigned_data (c.x rs2) then 1 else 0))
    | .SRA =>
      .ok () (c.setx rd (c.sign_extend (wsar64 (c.x rs1) (wrap32 (c.x rs2)))))
    | .SRAW =>
      .ok () (c.setx rd (sext32 (wsar32 (c.x rs1) (wrap32 (c.x rs2)))))
    | .SRL =>
      .ok () (c.setx rd (c.sign_extend
        (wshr64 (c.unsigned_data (c.x rs1)) (wrap32 (c.x rs2)))))
    | .SRLW =>
      .ok () (c.setx rd (sext32 (wshr32 (wrap32 (c.x rs1)) (wrap32 (c.x rs2)))))
    | .XOR => .ok () (c.setx rd (c.sign_extend (c.x rs1 ^^^ c.x rs2)))
    | _ => .fatal
  | .S =>
    let rs1 := (word >>> 15) &&& 0x1f
    let rs2 := (word >>> 20) &&& 0x1f
    let imm := sext32 (
      (if word &&& 0x80000000 = 0x80000000 then 0xfffff000 else 0) |||
      ((word &&& 0xfe000000) >>> 20) |||
      ((word &&& 0x00000f80) >>> 7))
    match instruction with
    | .SB =>
      match c.mmu.store (add64 (c.x rs1) imm) (wrap8 (c.x rs2)) with
      | .fatal => .fatal
      | .trap e m => .trap e { c with mmu := m }
      | .ok _ m => .ok () { c with mmu := m }
    | .SH =>
      match c.mmu.store_halfword (add64 (c.x rs1) imm) (wrap16 (c.x rs2)) with
      | .fatal => .fatal
      | .trap e m => .trap e { c with mmu := m }
      | .ok _ m => .ok () { c with mmu := m }
    | .SW =>
      match c.mmu.store_word (add64 (c.x rs1) imm) (wrap32 (c.x rs2)) with
      | .fatal => .fatal
      | .trap e m => .trap e { c with mmu := m }
      | .ok _ m => .ok () { c with mmu := m }
    | .SD =>
      match c.mmu.store_doubleword (add64 (c.x rs1) imm) (c.x rs2) with
      | .fatal => .fatal
      | .trap e m => .trap e { c with mmu := m }
      | .ok _ m => .ok () { c with mmu := m }
    | _ => .fatal
  | .U =>
    let rd := (word >>> 7) &&& 0x1f
    let imm :=
      (if word &&& 0x80000000 = 0x80000000 then 0xffffffff00000000 else 0) |||
      (word &&& 0xfffff000)
    match instruction with
    | .AUIPC =>
      .ok () (c.setx rd (c.sign_extend (add64 instruction_address imm)))
    | .LUI => .ok () (c.setx rd imm)
    | _ => .fatal

/-- `Cpu::operate` (cpu.rs lines 1484-2190): run the instruction body,
then hard-wire `x[0] = 0` before reporting success (cpu.rs line 2188). -/
def Cpu.operate (c : Cpu) (word : Nat) (instruction : Instruction)
    (instruction_address : Nat) : Res Cpu Unit :=
  match c.operate_main word instruction instruction_address with
  | .ok _ c => .ok () (c.setx 0 0)
  | .trap e c => .trap e c
  | .fatal => .fatal

/-- `Cpu::fetch` (cpu.rs lines 753-762): fetch 32 bits at `pc` through the
MMU; on a fetch trap the source advances `pc` by 4 before reporting it. -/
def Cpu.fetch (c : Cpu) : Res Cpu Nat :=
  match c.mmu.fetch_word c.pc with
  | .fatal => .fatal
  | .trap e m => .trap e { c with mmu := m, pc := add64 c.pc 4 }
  | .ok word m => .ok word { c with mmu := m }

/-- The first two lines of `Cpu::tick_operate` (cpu.rs lines 545-551):
the debug dump flag latch (the dump itself is commented out in the
source). -/
def Cpu.tick_dump (c : Cpu) : Cpu :=
  if c.pc = 0xffffffff80001f18 then { c with dump_flag := true } else c

/-- `Cpu::tick_operate` (cpu.rs lines 544-577): fetch, try to decode as a
32-bit instruction (advancing `pc` by 4), otherwise expand the low 16 bits
as a compressed instruction and decode that (advancing `pc` by 2); if both
decodes fail the source aborts with `panic!` (modelled as `fatal`). -/
def Cpu.tick_operate (c : Cpu) : Res Cpu Unit :=
  let c := Cpu.tick_dump c
  match c.fetch with
  | .fatal => .fatal
  | .trap e c => .trap e c
  | .ok word c =>
    let instruction_address := c.pc
    match Cpu.decode word with
    | some instruction =>
      let c := { c with pc := add64 c.pc 4 }
      c.operate word instruction instruction_address
    | none =>
      match Cpu.uncompress (word &&& 0xffff) with
      | .fatal => .fatal
      | .ok uncompressed_word =>
        match Cpu.decode uncompressed_word with
        | some instruction =>
          let c := { c with pc := add64 c.pc 2 }
          c.operate uncompressed_word instruction instruction_address
        | none => .fatal

/-- `Cpu::handle_trap` (cpu.rs lines 626-751): route the trap through the
delegation registers, optionally suppress a masked interrupt (returning
`false`), then write the target mode's `epc` (`pc - 4` for exceptions,
`pc` for interrupts), `cause` and `tval`, jump to its `tvec` and shift its
status register. Delivery into User mode reaches the source's
`Not implemenete yet` panic. -/
def Cpu.handle_trap (c : Cpu) (trap : Trap) (is_interrupt : Bool) :
    PRes (Bool × Cpu) :=
  match get_privilege_encoding c.privilege_mode with
  | .fatal => .fatal
  | .ok current_privilege_encoding =>
    let cause := get_trap_cause trap c.xlen
    let mdeleg := if is_interrupt then c.csr CSR_MIDELEG_ADDRESS
      else c.csr CSR_MEDELEG_ADDRESS
    let sdeleg := if is_interrupt then c.csr CSR_SIDELEG_ADDRESS
      else c.csr CSR_SEDELEG_ADDRESS
    let pos := cause &&& 0xffff
    let new_privilege_mode :=
      if (mdeleg >>> pos) &&& 1 = 0 then PrivilegeMode.Machine
      else if (sdeleg >>> pos) &&& 1 = 0 then PrivilegeMode.Supervisor
      else PrivilegeMode.User
    match (match new_privilege_mode with
           | .Machine => PRes.ok (c.csr CSR_MSTATUS_ADDRESS)
           | .Supervisor => PRes.ok (c.csr CSR_SSTATUS_ADDRESS)
           | .User => PRes.ok (c.csr CSR_USTATUS_ADDRESS)
           | .Reserved => PRes.fatal) with
    | .fatal => .fatal
    | .ok status =>
      let mie := (status >>> 3) &&& 1
      let sie := (status >>> 1) &&& 1
      let uie := status &&& 1
      match (if is_interrupt then
               match get_interrupt_privilege_mode trap with
               | .fatal => PRes.fatal
               | .ok interrupt_privilege_mode =>
                 match get_privilege_encoding interrupt_privilege_mode with
                 | .fatal => PRes.fatal
                 | .ok interrupt_privilege_encoding =>
                   match (match new_privilege_mode with
                          | .Machine => PRes.ok (mie == 0)
                          | .Supervisor => PRes.ok (sie == 0)
                          | .User => PRes.ok (uie == 0)
                          | .Reserved => PRes.fatal) with
                   | .fatal => PRes.fatal
                   | .ok disabled =>
                     if disabled then PRes.ok false
                     else if interrupt_privilege_encoding <
                         current_privilege_encoding then PRes.ok false
                     else PRes.ok true
             else PRes.ok true) with
      | .fatal => .fatal
      | .ok false => .ok (false, c)
      | .ok true =>
        let c := { c with privilege_mode := new_privilege_mode }
        let c := { c with mmu := c.mmu.update_privilege_mode c.privilege_mode }
        match (match c.privilege_mode with
               | .Machine => PRes.ok (CSR_MEPC_ADDRESS, CSR_MCAUSE_ADDRESS,
                   CSR_MTVAL_ADDRESS, CSR_MTVEC_ADDRESS)
               | .Supervisor => PRes.ok (CSR_SEPC_ADDRESS, CSR_SCAUSE_ADDRESS,
                   CSR_STVAL_ADDRESS, CSR_STVEC_ADDRESS)
               | .User => PRes.ok (CSR_UEPC_ADDRESS, CSR_UCAUSE_ADDRESS,
                   CSR_UTVAL_ADDRESS, CSR_UTVEC_ADDRESS)
               | .Reserved => PRes.fatal) with
        | .fatal => .fatal
        | .ok (csr_epc_address, csr_cause_address, csr_tval_address,
            csr_tvec_address) =>
          let c := c.write_csr_raw csr_epc_address
            (if is_interrupt then c.pc else sub64 c.pc 4)
          let c := c.write_csr_raw csr_cause_address cause
          let c := c.write_csr_raw csr_tval_address trap.value
          let c := { c with pc := c.csr csr_tvec_address }
          match c.privilege_mode with
          | .Machine =>
            let status := c.csr CSR_MSTATUS_ADDRESS
            let mie := (status >>> 3) &&& 1
            let new_status := (status &&& not64 0x1888) ||| (mie <<< 7) |||
              (current_privilege_encoding <<< 11)
            let c := c.write_csr_raw CSR_MSTATUS_ADDRESS new_status
            .ok (true, c)
          | .Supervisor =>
            let status := c.csr CSR_SSTATUS_ADDRESS
            let sie := (status >>> 1) &&& 1
            let new_status := (status &&& not64 0x122) ||| (sie <<< 5) |||
              ((current_privilege_encoding &&& 1) <<< 8)
            let c := c.write_csr_raw CSR_SSTATUS_ADDRESS new_status
            .ok (true, c)
          | .User => .fatal
          | .Reserved => .fatal

/-- `Cpu::handle_exception` (cpu.rs lines 622-624). -/
def Cpu.handle_exception (c : Cpu) (exception : Trap) : PRes Cpu :=
  match c.handle_trap exception false with
  | .fatal => .fatal
  | .ok (_, c) => .ok c

/-- The instruction-execution phase of `Cpu::tick` (cpu.rs lines 533-537):
execute one instruction and, if it raised a trap, run the trap pipeline as
an exception. The device-tick and interrupt phases that follow in `tick`
are outside the claims' scope. -/
def Cpu.tick_exception_phase (c : Cpu) : PRes Cpu :=
  match c.tick_operate with
  | .ok _ c => .ok c
  | .trap e c => c.handle_exception e
  | .fatal => .fatal

/-! ## Concrete machine states used to instantiate the claims -/

/-- Test fixture: an idle terminal. -/
def termEmpty : Terminal := { input_queue := [], output_queue := [] }

/-- Test fixture: a UART in its reset state (uart.rs `Uart::new`). -/
def uart0 : Uart :=
  { clock := 0, receive_register := 0, line_status_register := 0x20,
    interrupt_enable_register := 0, interrupt_identification_register := 0xf,
    line_control_register := 0, interrupting := false, terminal := termEmpty }

/-- Test fixture: a PLIC in its reset state (plic.rs `Plic::new`). -/
def plic0 : Plic :=
  { clock := 0, irq := 0, enabled := 0, threshold := 0,
    priorities := fun _ => 0, interrupt := .NoInterrupt }

/-- Test fixture: build an MMU around a DRAM byte map. -/
def mkMmu (mode : AddressingMode) (priv : PrivilegeMode) (ppn : Nat)
    (mem : Nat → Nat) (size : Nat) : Mmu :=
  { clock := 0, xlen := .Bit64, ppn := ppn, addressing_mode := mode,
    privilege_mode := priv, memory := mem, memorySize := size,
    dtb := fun _ => 0, dtbSize := 0, disk := { interrupting := false },
    plic := plic0, clint := Clint.new, uart := uart0 }

/-- Test fixture: build a CPU. -/
def mkCpu (xlen : Xlen) (priv : PrivilegeMode) (pc : Nat) (x : Nat → Nat)
    (csr : Nat → Nat) (mmu : Mmu) : Cpu :=
  { clock := 0, xlen := xlen, privilege_mode := priv, x := x, pc := pc,
    csr := csr, mmu := mmu, dump_flag := false }

/-- C1 scenario DRAM (offsets from `DRAM_BASE`): at offset 0 the compressed
instruction `C.LW x8, 0(x8)` (halfword `0x4000`); at offset `0x1010` the
SV39 root page table's entry 2, a valid executable gigapage leaf with
`A = D = 1` mapping VA `0x80000000` to itself (PTE `0x200000cf`); the root
page table's entry 0 (offset `0x1000`) is zero, so the data access of the
`C.LW` (to VA 0) page-faults. -/
def c1mem : Nat → Nat := fun a =>
  if a = 1 then 0x40
  else if a = 0x1010 then 0xcf
  else if a = 0x1013 then 0x20
  else 0

/-- C1 scenario CPU: Supervisor mode, SV39 with root PPN `0x80001`, about
to execute the compressed instruction at `0x80000000`. -/
def c1cpu : Cpu :=
  mkCpu .Bit64 .Supervisor 0x80000000 (fun _ => 0) (fun _ => 0)
    (mkMmu .SV39 .Supervisor 0x80001 c1mem 0x2000)

/-- CPU state after the C1 step (instruction executes, traps, and the trap
pipeline runs as an exception). -/
def c1after : Cpu :=
  match Cpu.tick_exception_phase c1cpu with
  | .ok c => c
  | .fatal => c1cpu

/-- C2 scenario CPU: Machine mode, no translation, DRAM zeroed, so the
fetched word is 0 — a reserved compressed encoding that fails both
decodes. -/
def c2cpu : Cpu :=
  mkCpu .Bit64 .Machine 0x80000000 (fun _ => 0) (fun _ => 0)
    (mkMmu .NoTranslation .Machine 0 (fun _ => 0) 0x100)

/-- CPU reached after the C2 fetch (used to discharge the amended claim's
fetch hypothesis). -/
def c2fetched : Cpu :=
  match (Cpu.tick_dump c2cpu).fetch with
  | .ok _ c => c
  | .trap _ c => c
  | .fatal => c2cpu

/-- C3 counterexample CPU: Supervisor mode with `medeleg` bit 2 and
`sedeleg` bit 2 both set, so an `IllegalInstruction` exception (cause 2)
routes to User mode. -/
def c3cpu : Cpu :=
  mkCpu .Bit64 .Supervisor 0x80000004 (fun _ => 0)
    (fun a => if a = CSR_MEDELEG_ADDRESS then 0x4
      else if a = CSR_SEDELEG_ADDRESS then 0x4 else 0)
    (mkMmu .NoTranslation .Supervisor 0 (fun _ => 0) 0x100)

/-- C3 witness CPU: Supervisor mode with all delegation registers clear,
so every exception routes to Machine mode. -/
def c3wcpu : Cpu :=
  mkCpu .Bit64 .Supervisor 0x80000004 (fun _ => 0) (fun _ => 0)
    (mkMmu .NoTranslation .Supervisor 0 (fun _ => 0) 0x100)

/-- CPU state after the C3 witness trap delivery. -/
def c3wafter : Cpu :=
  match Cpu.handle_trap c3wcpu ⟨.Breakpoint, 0⟩ false with
  | .ok (_, c) => c
  | .fatal => c3wcpu

/-- C4 counterexample CPU: XLEN=32, `x2 = 1`, `x3 = 32`. -/
def c4cpu : Cpu :=
  mkCpu .Bit32 .Machine 0x1004
    (fun i => if i = 2 then 1 else if i = 3 then 32 else 0) (fun _ => 0)
    (mkMmu .NoTranslation .Machine 0 (fun _ => 0) 0x100)

/-- CPU state after the C4 counterexample `SLL x1, x2, x3`
(word `0x003110b3`). -/
def c4after : Cpu :=
  match Cpu.operate c4cpu 0x003110b3 .SLL 0x1000 with
  | .ok _ c => c
  | .trap _ c => c
  | .fatal => c4cpu

/-- C4 witness CPU: XLEN=64, `x2 = 1`, `x3 = 64`. -/
def c4wcpu : Cpu :=
  mkCpu .Bit64 .Machine 0x1004
    (fun i => if i = 2 then 1 else if i = 3 then 64 else 0) (fun _ => 0)
    (mkMmu .NoTranslation .Machine 0 (fun _ => 0) 0x100)

/-- CPU state after the C4 witness `SLL x1, x2, x3`. -/
def c4wafter : Cpu :=
  match Cpu.operate c4wcpu 0x003110b3 .SLL 0x1000 with
  | .ok _ c => c
  | .trap _ c => c
  | .fatal => c4wcpu

/-- C5 scenario CPU: `x1 = 1` (an odd jump base), `pc` already advanced to
`0x80000004` past the `JALR x2, 0(x1)` at `0x80000000`. -/
def c5cpu : Cpu :=
  mkCpu .Bit64 .Machine 0x80000004 (fun i => if i = 1 then 1 else 0)
    (fun _ => 0) (mkMmu .NoTranslation .Machine 0 (fun _ => 0) 0x100)

/-- CPU state after the C5 `JALR x2, 0(x1)` (word `0x00008167`). -/
def c5after : Cpu :=
  match Cpu.operate c5cpu 0x00008167 .JALR 0x80000000 with
  | .ok _ c => c
  | .trap _ c => c
  | .fatal => c5cpu

/-- C6 witness CPU (spec scenario 1): about to run `ADDI x1, x0, -1`. -/
def c6cpu : Cpu :=
  mkCpu .Bit64 .Machine 0x1004 (fun _ => 0) (fun _ => 0)
    (mkMmu .NoTranslation .Machine 0 (fun _ => 0) 0x100)

/-- CPU state after the C6 witness `ADDI x1, x0, -1` (word `0xfff00093`). -/
def c6after : Cpu :=
  match Cpu.operate c6cpu 0xfff00093 .ADDI 0x1000 with
  | .ok _ c => c
  | .trap _ c => c
  | .fatal => c6cpu

/-- C7/C9 witness DRAM: a level-0 PTE at offset `0x1000`
(physical `0x80001000`): valid, `R=1`, `W=1`, `A=0`, `D=0`,
PPN `0x80000` — PTE value `0x20000007`. -/
def c7mem : Nat → Nat := fun a =>
  if a = 0x1000 then 0x07
  else if a = 0x1003 then 0x20
  else 0

/-- C7/C9 witness MMU (SV39, Supervisor). -/
def c7mmu : Mmu := mkMmu .SV39 .Supervisor 0x80001 c7mem 0x2000

/-- The C7 witness walk: a level-0 read access through the `A=0` PTE. -/
def c7res : PRes (Option Nat × Mmu) :=
  c7mmu.traverse_page 0x123 0 0x80001 (fun _ => 0) .Read

/-- Final MMU of the C7 witness walk. -/
def c7mFinal : Mmu :=
  match c7res with
  | .ok (_, m) => m
  | .fatal => c7mmu

/-- Physical address produced by the C7 witness walk. -/
def c7pa : Nat :=
  match c7res with
  | .ok (some pa, _) => pa
  | _ => 0

/-- The MMU after storing the A-updated PTE back (what C7 says the walk
must leave behind). -/
def c7mStored : Mmu :=
  match c7mmu.store_doubleword_raw 0x80001000
      (0x20000007 ||| (1 <<< 6) ||| 0) with
  | .ok m => m
  | .fatal => c7mmu

/-- C9 witness: an execute access through the same valid `R=1, W=1, X=0,
A=0` PTE — permission denied, but the A bit is still written back. -/
def c9res : PRes (Option Nat × Mmu) :=
  c7mmu.traverse_page 0x123 0 0x80001 (fun _ => 0) .Execute

/-- The MMU after the A-bit write-back of the C9 witness walk. -/
def c9mStored : Mmu :=
  match c7mmu.store_doubleword_raw 0x80001000
      (0x20000007 ||| (1 <<< 6) ||| 0) with
  | .ok m => m
  | .fatal => c7mmu

/-- C10 witness UART: DLAB clear, one received byte `0x41` pending with
data-ready status and a latched data-ready interrupt identification. -/
def u10 : Uart :=
  { clock := 7, receive_register := 0x41, line_status_register := 0x21,
    interrupt_enable_register := 1, interrupt_identification_register := 0x4,
    line_control_register := 0, interrupting := true, terminal := termEmpty }

/-- C2 witness CPU: DRAM holds the halfword `0x9c41` (a reserved
compressed encoding: op=01, funct3=100, funct1=1, funct2=11,
funct2_2=10), which fails both decodes. -/
def c2wcpu : Cpu :=
  mkCpu .Bit64 .Machine 0x80000000 (fun _ => 0) (fun _ => 0)
    (mkMmu .NoTranslation .Machine 0
      (fun a => if a = 0 then 0x41 else if a = 1 then 0x9c else 0) 0x100)

/-- CPU reached after the C2 witness fetch. -/
def c2wfetched : Cpu :=
  match (Cpu.tick_dump c2wcpu).fetch with
  | .ok _ c => c
  | .trap _ c => c
  | .fatal => c2wcpu


/-! ## Claims -/

/-- Claim C8: every `Clint::tick` increments `mtime` by 1 modulo `2^64`
and latches the interrupting flag exactly when `mtimecmp > 0` and the
pre-increment `mtime` exceeds `mtimecmp`, leaving `mtimecmp` and `msip`
unchanged; `Clint::reset_interrupting` clears the latch and resets `mtime`
to 0 while leaving `mtimecmp` and `msip` unchanged. -/
theorem clint_tick_and_reset_spec (c : Clint) :
    (c.tick).mtime = (c.mtime + 1) % 2 ^ 64 ∧
    (c.tick).interrupting =
      (c.interrupting ||
        (decide (c.mtimecmp > 0) && decide (c.mtimecmp < c.mtime))) ∧
    (c.tick).mtimecmp = c.mtimecmp ∧
    (c.tick).msip = c.msip ∧
    (c.reset_interrupting).interrupting = false ∧
    (c.reset_interrupting).mtime = 0 ∧
    (c.reset_interrupting).mtimecmp = c.mtimecmp ∧
    (c.reset_interrupting).msip = c.msip := by
  by_cases h1 : c.mtimecmp > 0 <;> by_cases h2 : c.mtimecmp < c.mtime <;>
    simp [Clint.tick, Clint.reset_interrupting, wrap64, h1, h2]

/-- Claim C10: reading UART address `0x10000000` with DLAB clear returns
the receive-register byte, zeroes the receive register, sets LSR to
`0x20`, clears a pending data-ready interrupt identification (leaving
other identifications alone), leaves LCR and the interrupt latch
untouched, and a second consecutive read returns 0. -/
theorem uart_rbr_read_spec (u : Uart)
    (hdlab : u.line_control_register >>> 7 = 0) :
    (u.load 0x10000000).1 = u.receive_register ∧
    (u.load 0x10000000).2.receive_register = 0 ∧
    (u.load 0x10000000).2.line_status_register = 0x20 ∧
    (u.load 0x10000000).2.interrupt_identification_register =
      (if u.interrupt_identification_register &&& 0xe = 0x4 then 0xf
       else u.interrupt_identification_register) ∧
    (u.load 0x10000000).2.line_control_register = u.line_control_register ∧
    (u.load 0x10000000).2.interrupting = u.interrupting ∧
    ((u.load 0x10000000).2.load 0x10000000).1 = 0 := by
  by_cases hi : u.interrupt_identification_register &&& 0xe = 0x4 <;>
    simp [Uart.load, hdlab, hi]

/-- Witness for claim C10 at the concrete UART `u10`. -/
theorem uart_rbr_read_witness :
    (u10.load 0x10000000).1 = u10.receive_register ∧
    (u10.load 0x10000000).2.receive_register = 0 ∧
    (u10.load 0x10000000).2.line_status_register = 0x20 ∧
    (u10.load 0x10000000).2.interrupt_identification_register =
      (if u10.interrupt_identification_register &&& 0xe = 0x4 then 0xf
       else u10.interrupt_identification_register) ∧
    (u10.load 0x10000000).2.line_control_register =
      u10.line_control_register ∧
    (u10.load 0x10000000).2.interrupting = u10.interrupting ∧
    ((u10.load 0x10000000).2.load 0x10000000).1 = 0 :=
  uart_rbr_read_spec u10 rfl

set_option maxRecDepth 100000 in
/-- Claim C1 (code bug): the compressed `C.LW` at `0x80000000` raises a
load page fault, and the trap pipeline records `mepc = 0x7ffffffe`
(`pc - 4` with `pc` advanced by 2), not the trapping instruction's address
`0x80000000`. -/
theorem trap_epc_compressed_off_by_two :
    c1cpu.pc = 0x80000000 ∧
    c1after.csr CSR_MCAUSE_ADDRESS = 13 ∧
    c1after.csr CSR_MEPC_ADDRESS = 0x7ffffffe ∧
    (0x7ffffffe : Nat) ≠ 0x80000000 :=
  ⟨rfl, rfl, rfl, by decide⟩

set_option maxRecDepth 100000 in
/-- Counterexample for claim C2: the fetched word 0 (a reserved compressed
encoding) fails both decodes and `tick_operate` aborts the emulator
(`panic!`), instead of raising an `IllegalInstruction` trap. -/
theorem unknown_instruction_aborts_counterexample :
    Cpu.tick_operate c2cpu = Res.fatal := rfl

/-- Claim C2 (amended): a fetched word that fails the 32-bit decode and
whose expanded low 16 bits also fail to decode makes `tick_operate` abort
the emulator with a panic, not raise an `IllegalInstruction` trap. -/
theorem unknown_instruction_aborts (c cF : Cpu) (word u : Nat)
    (hfetch : (Cpu.tick_dump c).fetch = .ok word cF)
    (hdec : Cpu.decode word = none)
    (hunc : Cpu.uncompress (word &&& 0xffff) = .ok u)
    (hdec2 : Cpu.decode u = none) :
    Cpu.tick_operate c = Res.fatal := by
  unfold Cpu.tick_operate
  simp only [hfetch, hdec, hunc, hdec2]

set_option maxRecDepth 100000 in
/-- Witness for claim C2 at the reserved compressed encoding `0x9c41`. -/
theorem unknown_instruction_aborts_witness :
    Cpu.tick_operate c2wcpu = Res.fatal :=
  unknown_instruction_aborts c2wcpu c2wfetched 0x9c41 0xffffffff rfl rfl rfl
    rfl

/-- Claim C5 (code bug): `JALR x2, 0(x1)` with `x1 = 1` writes the correct
return address to `x2` but sets `pc` to the odd target 1 — the low bit of
`rs1 + imm` is not cleared (clearing it would give 0). -/
theorem jalr_low_bit_not_cleared :
    c5after.pc = 1 ∧
    c5after.x 2 = 0x80000004 ∧
    c5after.pc ≠ add64 (c5cpu.x 1) 0 &&& 0xfffffffffffffffe :=
  ⟨rfl, rfl, by decide⟩

/-- Claim C6: whenever `Cpu::operate` completes without a trap, register
`x[0]` reads 0 afterwards — the hard-wired zero write at the end of
`operate` discards any writeback that named `x0`. -/
theorem x0_reads_zero_after_operate (c c' : Cpu) (word instruction_address : Nat)
    (instruction : Instruction)
    (h : c.operate word instruction instruction_address = .ok () c') :
    c'.x 0 = 0 := by
  unfold Cpu.operate at h
  cases hm : c.operate_main word instruction instruction_address with
  | ok a cm =>
    rw [hm] at h
    injection h with h1 h2
    subst h2
    simp [Cpu.setx, updMap]
  | trap e cm =>
    rw [hm] at h
    simp at h
  | fatal =>
    rw [hm] at h
    simp at h

/-- Witness for claim C6: after `ADDI x1, x0, -1`, `x0` still reads 0. -/
theorem x0_reads_zero_witness : c6after.x 0 = 0 :=
  x0_reads_zero_after_operate c6cpu c6after 0xfff00093 0x1000 .ADDI rfl

/-- Counterexample for claim C4: under XLEN=32, `SLL x1, x2, x3` with
`x2 = 1`, `x3 = 32` produces 0, while masking the shift amount to 5 bits
(shift by `32 mod 32`) would produce 1. -/
theorem shift32_mask_counterexample :
    c4after.x 1 = 0 ∧
    c4cpu.sign_extend (wrap64 (c4cpu.x 2 <<< (c4cpu.x 3 % 32))) = 1 ∧
    (0 : Nat) ≠ 1 :=
  ⟨rfl, rfl, by decide⟩

/-- Claim C4 (amended): the register-form shifts `SLL`/`SRL`/`SRA` mask
the shift amount in `rs2` to its low 6 bits under both XLEN settings
(Rust `wrapping_shl`/`wrapping_shr` on 64-bit values); under XLEN=64 this
is the claimed `n mod XLEN` behaviour, under XLEN=32 it is not. -/
theorem r_shift_mask (c : Cpu) (word a : Nat) :
    (∀ cA, c.operate word .SLL a = .ok () cA → (word >>> 7) &&& 0x1f ≠ 0 →
      cA.x ((word >>> 7) &&& 0x1f) =
        c.sign_extend (wrap64 (c.x ((word >>> 15) &&& 0x1f) <<<
          (c.x ((word >>> 20) &&& 0x1f) % 64)))) ∧
    (∀ cA, c.operate word .SRL a = .ok () cA → (word >>> 7) &&& 0x1f ≠ 0 →
      cA.x ((word >>> 7) &&& 0x1f) =
        c.sign_extend (wrap64 (c.unsigned_data (c.x ((word >>> 15) &&& 0x1f))) >>>
          (c.x ((word >>> 20) &&& 0x1f) % 64))) ∧
    (∀ cA, c.operate word .SRA a = .ok () cA → (word >>> 7) &&& 0x1f ≠ 0 →
      cA.x ((word >>> 7) &&& 0x1f) =
        c.sign_extend (sar64 (c.x ((word >>> 15) &&& 0x1f))
          (c.x ((word >>> 20) &&& 0x1f) % 64))) := by
  have hmod : ∀ n : Nat, wrap32 n % 64 = n % 64 := fun n =>
    Nat.mod_mod_of_dvd n (by norm_num)
  refine ⟨?_, ?_, ?_⟩ <;>
  · intro cA h hrd
    unfold Cpu.operate Cpu.operate_main at h
    simp only [get_instruction_format] at h
    injection h with h1 h2
    subst h2
    simp [Cpu.setx, updMap, hrd, wshl64, wshr64, wsar64, hmod]


/-- Witness for claim C4: under XLEN=64, `SLL x1, x2, x3` with `x2 = 1`,
`x3 = 64` shifts by `64 mod 64 = 0`. -/
theorem r_shift_mask_witness :
    c4wafter.x 1 =
      c4wcpu.sign_extend (wrap64 (c4wcpu.x 2 <<< (c4wcpu.x 3 % 64))) :=
  (r_shift_mask c4wcpu 0x003110b3 0x1000).1 c4wafter rfl (by decide)

/-- Counterexample for claim C3: with `medeleg` bit 2 and `sedeleg` bit 2
both set, an `IllegalInstruction` exception routes to User mode, where the
source's delivery code aborts (`panic!("Not implemenete yet")`) — the trap
is not taken in User mode. -/
theorem delegation_to_user_aborts_counterexample :
    Cpu.handle_trap c3cpu ⟨.IllegalInstruction, 0⟩ false = PRes.fatal := rfl

set_option maxHeartbeats 2000000 in
/-- C3 (corrected): delegation routing in `Cpu::handle_trap`. If the
`medeleg`/`mideleg` bit for the cause is clear the trap is taken in Machine
mode; if it is set and the `sedeleg`/`sideleg` bit is clear it is taken in
Supervisor mode; if both are set the code selects User mode but delivery
aborts the emulator (`panic!("Not implemenete yet")`) instead of taking the
trap in User mode. -/
theorem handle_trap_delegation (c : Cpu) (t : Trap) (i : Bool) :
    (∀ cA : Cpu, Cpu.handle_trap c t i = PRes.ok (true, cA) →
      cA.privilege_mode =
        (if ((if i then c.csr CSR_MIDELEG_ADDRESS
              else c.csr CSR_MEDELEG_ADDRESS) >>>
             (get_trap_cause t c.xlen &&& 0xffff)) &&& 1 = 0
         then PrivilegeMode.Machine else PrivilegeMode.Supervisor)) ∧
    (i = false →
      ((c.csr CSR_MEDELEG_ADDRESS) >>>
        (get_trap_cause t c.xlen &&& 0xffff)) &&& 1 ≠ 0 →
      ((c.csr CSR_SEDELEG_ADDRESS) >>>
        (get_trap_cause t c.xlen &&& 0xffff)) &&& 1 ≠ 0 →
      Cpu.handle_trap c t i = PRes.fatal) := by
  constructor
  · intro cA h
    cases i
    · unfold Cpu.handle_trap at h
      by_cases hM : (c.csr CSR_MEDELEG_ADDRESS >>>
          (get_trap_cause t c.xlen &&& 0xffff)) % 2 = 0
      · cases hp : c.privilege_mode <;> rw [hp] at h <;>
          simp only [get_privilege_encoding] at h
        all_goals try (exact PRes.noConfusion h)
        all_goals (simp [hM, Cpu.write_csr_raw] at h <;> (subst h; simp [hM]))
      · by_cases hS : (c.csr CSR_SEDELEG_ADDRESS >>>
            (get_trap_cause t c.xlen &&& 0xffff)) % 2 = 0
        · cases hp : c.privilege_mode <;> rw [hp] at h <;>
            simp only [get_privilege_encoding] at h
          all_goals try (exact PRes.noConfusion h)
          all_goals (simp [hM, hS, Cpu.write_csr_raw] at h <;>
            (subst h; simp [hM]))
        · cases hp : c.privilege_mode <;> rw [hp] at h <;>
            simp only [get_privilege_encoding] at h
          all_goals try (exact PRes.noConfusion h)
          all_goals simp [hM, hS, Cpu.write_csr_raw] at h
    · unfold Cpu.handle_trap at h
      by_cases hM : (c.csr CSR_MIDELEG_ADDRESS >>>
          (get_trap_cause t c.xlen &&& 0xffff)) % 2 = 0
      · cases hp : c.privilege_mode <;> rw [hp] at h <;>
          simp only [get_privilege_encoding] at h
        all_goals try (exact PRes.noConfusion h)
        all_goals by_cases hmie : (c.csr CSR_MSTATUS_ADDRESS >>> 3) % 2 = 0
        all_goals (
          cases hint : get_interrupt_privilege_mode t with
          | fatal => simp [hint, hM, Cpu.write_csr_raw] at h
          | ok ipm =>
            cases ipm <;> simp [hint, hM, hmie, Cpu.write_csr_raw] at h <;>
              (subst h; simp [hM]))
      · by_cases hS : (c.csr CSR_SIDELEG_ADDRESS >>>
            (get_trap_cause t c.xlen &&& 0xffff)) % 2 = 0
        · cases hp : c.privilege_mode <;> rw [hp] at h <;>
            simp only [get_privilege_encoding] at h
          all_goals try (exact PRes.noConfusion h)
          all_goals by_cases hsie : (c.csr CSR_SSTATUS_ADDRESS >>> 1) % 2 = 0
          all_goals (
            cases hint : get_interrupt_privilege_mode t with
            | fatal => simp [hint, hM, hS, Cpu.write_csr_raw] at h
            | ok ipm =>
              cases ipm <;>
                simp [hint, hM, hS, hsie, Cpu.write_csr_raw] at h <;>
                (subst h; simp [hM]))
        · cases hp : c.privilege_mode <;> rw [hp] at h <;>
            simp only [get_privilege_encoding] at h
          all_goals try (exact PRes.noConfusion h)
          all_goals by_cases huie : c.csr CSR_USTATUS_ADDRESS % 2 = 0
          all_goals (
            cases hint : get_interrupt_privilege_mode t with
            | fatal => simp [hint, hM, hS, Cpu.write_csr_raw] at h
            | ok ipm =>
              cases ipm <;>
                simp [hint, hM, hS, huie, Cpu.write_csr_raw] at h)
  · intro hi hM hS
    subst hi
    simp only [Nat.and_one_is_mod] at hM hS
    unfold Cpu.handle_trap
    cases hp : c.privilege_mode <;>
      simp [get_privilege_encoding, Cpu.write_csr_raw, hM, hS]

/-- C3 witness: in `c3wcpu` (all delegation registers clear) a Breakpoint
exception is taken in Machine mode, and in `c3cpu` (medeleg and sedeleg
both delegate IllegalInstruction) delivery aborts. -/
theorem handle_trap_delegation_witness :
    (c3wafter.privilege_mode =
      if ((if false then c3wcpu.csr CSR_MIDELEG_ADDRESS
           else c3wcpu.csr CSR_MEDELEG_ADDRESS) >>>
          (get_trap_cause ⟨.Breakpoint, 0⟩ c3wcpu.xlen &&& 0xffff)) &&& 1 = 0
      then PrivilegeMode.Machine else PrivilegeMode.Supervisor) ∧
    Cpu.handle_trap c3cpu ⟨.IllegalInstruction, 0⟩ false = PRes.fatal :=
  ⟨(handle_trap_delegation c3wcpu ⟨.Breakpoint, 0⟩ false).1 c3wafter rfl,
   (handle_trap_delegation c3cpu ⟨.IllegalInstruction, 0⟩ false).2 rfl
     (by decide) (by decide)⟩

/-- `Mmu::store_raw` never changes the addressing mode: every branch only
updates a device or the RAM array. -/
theorem Mmu.store_raw_addressing (m : Mmu) (a v : Nat) (m' : Mmu)
    (h : m.store_raw a v = .ok m') : m'.addressing_mode = m.addressing_mode := by
  simp only [Mmu.store_raw] at h
  repeat' split at h
  all_goals first
    | exact PRes.noConfusion h
    | (injection h with h; subst h; rfl)

/-- The byte-store loop never changes the addressing mode. -/
theorem Mmu.store_raw_bytes_addressing (w : Nat) :
    ∀ (m : Mmu) (a v : Nat) (m' : Mmu),
      m.store_raw_bytes a v w = .ok m' →
      m'.addressing_mode = m.addressing_mode := by
  induction w with
  | zero =>
    intro m a v m' h
    unfold Mmu.store_raw_bytes at h
    injection h with h
    subst h
    rfl
  | succ w ih =>
    intro m a v m' h
    unfold Mmu.store_raw_bytes at h
    cases hs : m.store_raw a (v &&& 0xff) with
    | fatal => rw [hs] at h; exact PRes.noConfusion h
    | ok m1 =>
      rw [hs] at h
      exact (ih m1 _ _ m' h).trans (Mmu.store_raw_addressing m a _ m1 hs)

/-- The PTE write-back never changes the addressing mode. -/
theorem Mmu.store_pte_addressing (m : Mmu) (a v : Nat) (m' : Mmu)
    (h : m.store_pte a v = .ok m') : m'.addressing_mode = m.addressing_mode := by
  unfold Mmu.store_pte at h
  cases hm : m.addressing_mode with
  | NoTranslation =>
    rw [hm] at h
    exact (Mmu.store_raw_bytes_addressing 8 m _ _ m' h).trans hm
  | SV32 =>
    rw [hm] at h
    exact (Mmu.store_raw_bytes_addressing 4 m _ _ m' h).trans hm
  | SV39 =>
    rw [hm] at h
    exact (Mmu.store_raw_bytes_addressing 8 m _ _ m' h).trans hm
  | SV48 =>
    rw [hm] at h
    exact (Mmu.store_raw_bytes_addressing 8 m _ _ m' h).trans hm

/-- One-step unfolding of `Mmu.traverse_page_fueled` at positive fuel,
needed because the automatic unfolding lemmas fail on the nested matches. -/
theorem Mmu.traverse_page_fueled_succ (fuel : Nat) (m : Mmu)
    (v_address level parent_ppn : Nat) (vpns : Nat → Nat)
    (access_type : MemoryAccessType) :
    Mmu.traverse_page_fueled (fuel + 1) m v_address level parent_ppn vpns
      access_type =
    (
      let pagesize := 4096
      let ptesize := match m.addressing_mode with
        | .SV32 => 4
        | _ => 8
      let pte_address := wrap64 (parent_ppn * pagesize + vpns level * ptesize)
      match (match m.addressing_mode with
             | .SV32 => m.load_word_raw pte_address
             | _ => m.load_doubleword_raw pte_address) with
      | .fatal => .fatal
      | .ok (pte, m) =>
        let ppn := match m.addressing_mode with
          | .SV32 => (pte >>> 10) &&& 0x3fffff
          | _ => (pte >>> 10) &&& 0xfffffffffff
        match (match m.addressing_mode with
               | .SV32 => PRes.ok (fun i => match i with
                   | 0 => (pte >>> 10) &&& 0x3ff
                   | 1 => (pte >>> 20) &&& 0xfff
                   | _ => 0)
               | .SV39 => PRes.ok (fun i => match i with
                   | 0 => (pte >>> 10) &&& 0x1ff
                   | 1 => (pte >>> 19) &&& 0x1ff
                   | _ => (pte >>> 28) &&& 0x3ffffff)
               | _ => PRes.fatal) with
        | .fatal => .fatal
        | .ok ppns =>
          let d := (pte >>> 7) &&& 1
          let a := (pte >>> 6) &&& 1
          let x := (pte >>> 3) &&& 1
          let w := (pte >>> 2) &&& 1
          let r := (pte >>> 1) &&& 1
          let v := pte &&& 1
          if v = 0 ∨ (r = 0 ∧ w = 1) then .ok (none, m)
          else if r = 0 ∧ x = 0 then
            match level with
            | 0 => .ok (none, m)
            | l + 1 =>
              Mmu.traverse_page_fueled fuel m v_address l ppn vpns access_type
          else
            match (if (a == 0 || (match access_type with
                                  | .Write => d == 0
                                  | _ => false)) = true then
                     let new_pte := pte ||| (1 <<< 6) |||
                       (match access_type with
                        | .Write => 1 <<< 7
                        | _ => 0)
                     match m.addressing_mode with
                     | .SV32 => m.store_word_raw pte_address (wrap32 new_pte)
                     | _ => m.store_doubleword_raw pte_address new_pte
                   else PRes.ok m) with
            | .fatal => .fatal
            | .ok m =>
              if (match access_type with
                  | .Execute => x == 0
                  | .Read => r == 0
                  | .Write => w == 0) = true then .ok (none, m)
              else
                let offset := v_address &&& 0xfff
                match m.addressing_mode with
                | .SV32 =>
                  match level with
                  | 1 =>
                    if ppns 0 ≠ 0 then .ok (none, m)
                    else .ok (some ((ppns 1 <<< 22) ||| (vpns 0 <<< 12) ||| offset), m)
                  | 0 => .ok (some ((ppn <<< 12) ||| offset), m)
                  | _ => .fatal
                | _ =>
                  match level with
                  | 2 =>
                    if ppns 1 ≠ 0 ∨ ppns 0 ≠ 0 then .ok (none, m)
                    else .ok (some ((ppns 2 <<< 30) ||| (vpns 1 <<< 21) |||
                      (vpns 0 <<< 12) ||| offset), m)
                  | 1 =>
                    if ppns 0 ≠ 0 then .ok (none, m)
                    else .ok (some ((ppns 2 <<< 30) ||| (ppns 1 <<< 21) |||
                      (vpns 0 <<< 12) ||| offset), m)
                  | 0 => .ok (some ((ppn <<< 12) ||| offset), m)
                  | _ => .fatal) := rfl

set_option maxHeartbeats 2000000 in
/-- C7: accessed/dirty update at a leaf of `Mmu::traverse_page`, for both
page-table formats the walk serves (SV32 with 4-byte PTEs and SV39 with
8-byte PTEs). When the walk reaches a valid leaf PTE and the A bit is clear
(or the access is a write and the D bit is clear), the PTE or-ed with A
(and D for a write) is stored back, and a successful translation returns
that stored MMU state; when A is already set (and D for a write) the MMU
is left unchanged. -/
theorem traverse_page_ad_update (m m' mFinal : Mmu)
    (v_address level parent_ppn pte pa : Nat) (vpns : Nat → Nat)
    (access_type : MemoryAccessType)
    (hmode : m.addressing_mode = AddressingMode.SV32 ∨
      m.addressing_mode = AddressingMode.SV39)
    (hload : m.load_pte
      (wrap64 (parent_ppn * 4096 + vpns level * m.ptesize)) = .ok (pte, m))
    (hv : pte % 2 = 1)
    (hrw : ¬((pte >>> 1) % 2 = 0 ∧ (pte >>> 2) % 2 = 1))
    (hleaf : ¬((pte >>> 1) % 2 = 0 ∧ (pte >>> 3) % 2 = 0)) :
    (pte_needs_ad_update pte access_type = true →
      m.store_pte (wrap64 (parent_ppn * 4096 + vpns level * m.ptesize))
        (pte_with_ad pte access_type) = .ok m' →
      m.traverse_page v_address level parent_ppn vpns access_type =
        .ok (some pa, mFinal) →
      mFinal = m') ∧
    (pte_needs_ad_update pte access_type = false →
      m.traverse_page v_address level parent_ppn vpns access_type =
        .ok (some pa, mFinal) →
      mFinal = m) := by
  constructor
  · intro hAD hstore hsucc
    have hmode' : m'.addressing_mode = m.addressing_mode :=
      Mmu.store_pte_addressing m _ _ m' hstore
    unfold Mmu.traverse_page at hsucc
    rw [Mmu.traverse_page_fueled_succ] at hsucc
    rcases hmode with hmode | hmode
    all_goals rw [hmode] at hmode'
    all_goals cases access_type
    all_goals simp [pte_needs_ad_update] at hAD
    all_goals simp [Mmu.store_pte, Mmu.ptesize, pte_with_ad, hmode] at hstore
    all_goals simp [Mmu.load_pte, Mmu.ptesize, hmode] at hload
    all_goals
      simp [hmode, hmode', hload, hstore, hv, hrw, hleaf, hAD] at hsucc
    all_goals split at hsucc
    all_goals rcases level with _ | _ | _ | l
    all_goals simp at hsucc
    all_goals try (exact hsucc.2.symm)
    all_goals (split at hsucc <;> simp at hsucc)
    all_goals exact hsucc.2.symm
  · intro hAD hsucc
    unfold Mmu.traverse_page at hsucc
    rw [Mmu.traverse_page_fueled_succ] at hsucc
    rcases hmode with hmode | hmode
    all_goals cases access_type
    all_goals simp [pte_needs_ad_update] at hAD
    all_goals simp [Mmu.load_pte, Mmu.ptesize, hmode] at hload
    all_goals simp [hmode, hload, hv, hrw, hleaf, hAD] at hsucc
    all_goals split at hsucc
    all_goals rcases level with _ | _ | _ | l
    all_goals simp at hsucc
    all_goals try (exact hsucc.2.symm)
    all_goals (split at hsucc <;> simp at hsucc)
    all_goals exact hsucc.2.symm

set_option maxRecDepth 100000 in
/-- C7 witness: the concrete level-0 read walk through an `A=0` PTE ends in
exactly the MMU state produced by storing the A-updated PTE back. -/
theorem traverse_page_ad_update_witness : c7mFinal = c7mStored :=
  (traverse_page_ad_update c7mmu c7mStored c7mFinal 0x123 0 0x80001
      0x20000007 c7pa (fun _ => 0) .Read (Or.inr rfl) rfl (by decide)
      (by decide) (by decide)).1 (by decide) rfl rfl

set_option maxHeartbeats 2000000 in
/-- C9: in `Mmu::traverse_page` (both the SV32 and the SV39 page-table
formats), a valid leaf PTE whose permission bit for the requested access is
clear yields a page fault (`none`), but the A/D write-back has already
happened: the returned MMU is the stored one. -/
theorem traverse_fault_after_ad_writeback (m m' : Mmu)
    (v_address level parent_ppn pte : Nat) (vpns : Nat → Nat)
    (access_type : MemoryAccessType)
    (hmode : m.addressing_mode = AddressingMode.SV32 ∨
      m.addressing_mode = AddressingMode.SV39)
    (hload : m.load_pte
      (wrap64 (parent_ppn * 4096 + vpns level * m.ptesize)) = .ok (pte, m))
    (hv : pte % 2 = 1)
    (hrw : ¬((pte >>> 1) % 2 = 0 ∧ (pte >>> 2) % 2 = 1))
    (hleaf : ¬((pte >>> 1) % 2 = 0 ∧ (pte >>> 3) % 2 = 0))
    (hAD : pte_needs_ad_update pte access_type = true)
    (hstore : m.store_pte
      (wrap64 (parent_ppn * 4096 + vpns level * m.ptesize))
      (pte_with_ad pte access_type) = .ok m')
    (hperm : pte_denies pte access_type = true) :
    m.traverse_page v_address level parent_ppn vpns access_type =
      .ok (none, m') := by
  unfold Mmu.traverse_page
  rw [Mmu.traverse_page_fueled_succ]
  rcases hmode with hmode | hmode
  all_goals cases access_type
  all_goals simp [pte_needs_ad_update, pte_denies] at hAD hperm
  all_goals simp [Mmu.store_pte, Mmu.ptesize, pte_with_ad, hmode] at hstore
  all_goals simp [Mmu.load_pte, Mmu.ptesize, hmode] at hload
  all_goals try (simp [hperm] at hleaf)
  all_goals try (simp [hperm] at hrw)
  all_goals simp [hmode, hload, hstore, hv, hrw, hleaf, hAD, hperm]
  all_goals (intro hr hx; rw [hleaf hr] at hx; exact (Nat.one_ne_zero hx).elim)

set_option maxRecDepth 100000 in
/-- C9 witness: the concrete execute walk through the `X=0, A=0` PTE
page-faults while leaving behind the A-updated MMU state. -/
theorem traverse_fault_after_ad_writeback_witness :
    c9res = PRes.ok (none, c9mStored) :=
  traverse_fault_after_ad_writeback c7mmu c9mStored 0x123 0 0x80001
    0x20000007 (fun _ => 0) .Execute (Or.inr rfl) rfl (by decide)
    (by decide) (by decide) (by decide) rfl (by decide)
